import Mathlib

/-!
Shallow embedding of the `VulkanRenderer` class of the minimalimageviewer
repository (src/src/vulkan_renderer.cpp, src/src/vulkan_renderer.h).

The renderer's member state is modelled as an explicit record
(`MIV.Renderer`), with the members grouped into sub-records following the
grouping comments of the header (device context, swapchain, per-frame
synchronization, texture, error flags, software fallback); Vulkan handles
are natural numbers with `0` playing the role of `VK_NULL_HANDLE`.  Every
call into the Vulkan driver is an event of the inductive `MIV.VkCall`;
each embedded member function returns the updated record together with the
list of driver calls it issued, so that "no GPU call is attempted" and
"the second call releases nothing" are statements about that list.
Results returned by the driver (`VkResult` values, surface capabilities,
fresh handles for created objects) are inputs of the embedded functions,
packaged in small environment records, since they are external to the
program.  Floating point values never enter the model: the blit
destination rectangle is embedded from the point where the source casts
the coordinates to `int32_t` (lines 1168-1197), universally quantifying
over the cast results, which covers every zoom/offset input.
-/

namespace MIV

/-- `VkResult` values distinguished by the renderer's control flow.  All
result codes the source treats uniformly in its `default:` branches are
collapsed into `errorOther`. -/
inductive VkResult
  | success
  | errorDeviceLost
  | errorOutOfDateKHR
  | suboptimalKHR
  | errorOther
  deriving DecidableEq, Repr

/-- Image layouts the renderer tracks or mentions. -/
inductive VkImageLayout
  | undefined
  | transferDstOptimal
  | transferSrcOptimal
  | presentSrcKHR
  | shaderReadOnlyOptimal
  deriving DecidableEq, Repr

/-- Image/texture formats the renderer selects between. -/
inductive VkFormat
  | undefined
  | r8g8b8a8Srgb
  | r16g16b16a16Sfloat
  | b8g8r8a8Srgb
  | b8g8r8a8Unorm
  deriving DecidableEq, Repr

/-- A Vulkan handle; `0` is `VK_NULL_HANDLE`. -/
abbrev Handle := Nat

/-- Outcome of `checkVulkanResult` / `checkVulkanOperation`
(vulkan_renderer.cpp lines 24-68): success flag plus the two output flags
`outDeviceLost` and `outSwapchainOutOfDate`. -/
structure CheckOutcome where
  ok : Bool
  dl : Bool
  ood : Bool
  deriving DecidableEq, Repr

/-- Embedding of `checkVulkanOperation` (lines 66-68, via `checkVulkanResult`
lines 24-63): `VK_ERROR_DEVICE_LOST` sets the device-lost output,
`VK_ERROR_OUT_OF_DATE_KHR`/`VK_SUBOPTIMAL_KHR` set the out-of-date output,
every other non-success code just fails. -/
def checkVulkanOperation : VkResult → CheckOutcome
  | .success => ⟨true, false, false⟩
  | .errorDeviceLost => ⟨false, true, false⟩
  | .errorOutOfDateKHR => ⟨false, false, true⟩
  | .suboptimalKHR => ⟨false, false, true⟩
  | .errorOther => ⟨false, false, false⟩

/-- `MAX_FRAMES_IN_FLIGHT` (vulkan_renderer.h line 81). -/
def maxFramesInFlight : Nat := 2

/-- A blit destination rectangle, the four `int32_t` corner coordinates
passed to `vkCmdBlitImage` as `dstOffsets`. -/
structure BlitRect where
  x0 : Int
  y0 : Int
  x1 : Int
  y1 : Int
  deriving DecidableEq, Repr

/-- Embedding of the destination-rectangle clamping of `Render`
(vulkan_renderer.cpp lines 1168-1197).  The inputs are the four corner
coordinates after the `static_cast<int32_t>` of the float values (every
zoom/offset input reaches this code as some such quadruple; the preceding
lines 1152-1166 guarantee the casts are finite and in `int32` range).
First each coordinate is clamped into `[0, swapchainWidth]` resp.
`[0, swapchainHeight]`, then a degenerate rectangle is widened to one pixel,
shifting it left/up when that would overrun the surface. -/
def clampDstRect (dstX0 dstY0 dstX1 dstY1 : Int) (scW scH : Int) : BlitRect :=
  let x0 := max 0 (min dstX0 scW)
  let y0 := max 0 (min dstY0 scH)
  let x1 := max 0 (min dstX1 scW)
  let y1 := max 0 (min dstY1 scH)
  let px :=
    if x1 ≤ x0 then
      if scW < x0 + 1 then (max 0 (scW - 1), scW) else (x0, x0 + 1)
    else (x0, x1)
  let py :=
    if y1 ≤ y0 then
      if scH < y0 + 1 then (max 0 (scH - 1), scH) else (y0, y0 + 1)
    else (y0, y1)
  ⟨px.1, py.1, px.2, py.2⟩

/-- Sparse-image tile record (`TileInfo`, vulkan_renderer.h lines 16-25). -/
structure TileInfo where
  x : Nat
  y : Nat
  width : Nat
  height : Nat
  loaded : Bool
  memory : Handle
  stagingBuffer : Handle
  stagingMemory : Handle
  deriving DecidableEq, Repr

/-- The device-context members (vulkan_renderer.h lines 60-68, 118). -/
structure DeviceState where
  instanceH : Handle
  physicalDeviceH : Handle
  deviceH : Handle
  surfaceH : Handle
  graphicsQueueH : Handle
  presentQueueH : Handle
  vulkanLibraryH : Handle
  deriving DecidableEq, Repr

/-- The swapchain members (vulkan_renderer.h lines 70-78). -/
structure SwapchainState where
  swapchainH : Handle
  format : VkFormat
  extentW : Nat
  extentH : Nat
  images : List Handle
  imageViews : List Handle
  commandBuffers : List Handle
  commandPoolH : Handle
  deriving DecidableEq, Repr

/-- The per-frame and legacy synchronization members (vulkan_renderer.h
lines 80-90). -/
structure SyncState where
  imageAvailableSemaphores : List Handle
  renderFinishedSemaphores : List Handle
  inFlightFences : List Handle
  currentFrame : Nat
  imageAvailableH : Handle
  renderFinishedH : Handle
  inFlightFenceH : Handle
  deriving DecidableEq, Repr

/-- The texture members (vulkan_renderer.h lines 92-106). -/
structure TextureState where
  imageH : Handle
  memoryH : Handle
  format : VkFormat
  layout : VkImageLayout
  width : Nat
  height : Nat
  isHdr : Bool
  isSparse : Bool
  tiles : List TileInfo
  deriving DecidableEq, Repr

/-- The software-fallback members (vulkan_renderer.h lines 120-124); the
pixel buffer is modelled by its byte size. -/
structure FallbackState where
  hwnd : Handle
  width : Nat
  height : Nat
  bufferSize : Nat
  deriving DecidableEq, Repr

/-- The member state of `class VulkanRenderer` (vulkan_renderer.h lines
58-126).  `nextHandle` is a freshness counter from which newly created
Vulkan objects draw their (nonzero) handles. -/
structure Renderer where
  dev : DeviceState
  sc : SwapchainState
  sync : SyncState
  tex : TextureState
  deviceLost : Bool
  swapchainOutOfDate : Bool
  vulkanAvailable : Bool
  fb : FallbackState
  nextHandle : Nat
  deriving DecidableEq, Repr

/-- `IsDeviceLost` accessor (vulkan_renderer.h line 53). -/
def IsDeviceLost (s : Renderer) : Bool := s.deviceLost

/-- `IsSwapchainOutOfDate` accessor (vulkan_renderer.h line 54). -/
def IsSwapchainOutOfDate (s : Renderer) : Bool := s.swapchainOutOfDate

/-- Calls into the Vulkan driver (and `FreeLibrary`) that the embedded
member functions can issue, with the payloads the claims need. -/
inductive VkCall
  | deviceWaitIdle
  | destroyImageView (h : Handle)
  | destroySwapchainKHR (h : Handle)
  | createSwapchainKHR
  | getSwapchainImagesKHR
  | createImageView
  | allocateCommandBuffers
  | freeCommandBuffers
  | createCommandPool
  | destroyCommandPool (h : Handle)
  | createSemaphore
  | createFence
  | destroySemaphore (h : Handle)
  | destroyFence (h : Handle)
  | createImage
  | destroyImage (h : Handle)
  | allocateMemory
  | freeMemory (h : Handle)
  | bindImageMemory
  | createBuffer (size : Nat)
  | destroyBuffer (h : Handle)
  | bindBufferMemory
  | mapMemory
  | unmapMemory
  | beginCommandBuffer
  | endCommandBuffer
  | pipelineBarrier (oldLayout newLayout : VkImageLayout)
  | copyBufferToImage (width height : Nat)
  | queueSubmit
  | queueWaitIdle
  | waitForFences
  | resetFences
  | acquireNextImageKHR
  | resetCommandBuffer
  | clearColorImage
  | blitImage (x0 y0 x1 y1 : Int)
  | renderInstructionalUI
  | queuePresentKHR
  | destroyDevice (h : Handle)
  | destroySurfaceKHR (h : Handle)
  | destroyInstance (h : Handle)
  | freeLibrary (h : Handle)
  deriving DecidableEq, Repr

/-- The `if (deviceLost) deviceLost_ = true;` pattern that follows every
failed `checkVulkanOperation` in the source. -/
def applyCheck (s : Renderer) (c : CheckOutcome) : Renderer :=
  if c.dl then { s with deviceLost := true } else s

/-- Embedding of `destroyTexture` (lines 593-621): frees sparse tile
resources when sparse and the device is live, destroys the texture image
and memory when non-null, then resets layout, dimensions, the sparse flag
and the tile list.  (`textureFormat_` and `textureIsHdr_` are left as they
are, as in the source.) -/
def destroyTexture (s : Renderer) : Renderer × List VkCall :=
  let tileCalls :=
    if s.tex.isSparse && (s.dev.deviceH != 0) then
      (s.tex.tiles.map fun tile =>
        (if tile.stagingBuffer ≠ 0 then [VkCall.destroyBuffer tile.stagingBuffer] else []) ++
        (if tile.stagingMemory ≠ 0 then [VkCall.freeMemory tile.stagingMemory] else []) ++
        (if tile.memory ≠ 0 then [VkCall.freeMemory tile.memory] else [])).flatten
    else []
  let imgCalls :=
    (if s.tex.imageH ≠ 0 then [VkCall.destroyImage s.tex.imageH] else []) ++
    (if s.tex.memoryH ≠ 0 then [VkCall.freeMemory s.tex.memoryH] else [])
  ({ s with tex := { s.tex with imageH := 0, memoryH := 0, layout := .undefined,
                                width := 0, height := 0, isSparse := false,
                                tiles := [] } },
   tileCalls ++ imgCalls)

/-- Driver responses consumed by `createTexture`: the `vkCreateImage`
result, whether `findMemoryType` found a device-local type (`!= UINT32_MAX`),
and the `vkAllocateMemory` result. -/
structure CreateTextureEnv where
  createImageResult : VkResult
  memoryTypeFound : Bool
  allocResult : VkResult
  deriving DecidableEq, Repr

/-- Embedding of `createTexture` (lines 542-591): destroys any previous
texture, picks `R16G16B16A16_SFLOAT` for HDR and `R8G8B8A8_SRGB` otherwise,
creates image and memory (rolling the image back on memory-type or
allocation failure), and on success records layout `UNDEFINED`, the new
dimensions and the non-sparse flag. -/
def createTexture (s : Renderer) (width height : Nat) (isHdr : Bool)
    (env : CreateTextureEnv) : Renderer × List VkCall × Bool :=
  let d := destroyTexture s
  let s := d.1
  let fmt := if isHdr then VkFormat.r16g16b16a16Sfloat else VkFormat.r8g8b8a8Srgb
  let s := { s with tex := { s.tex with format := fmt, isHdr := isHdr } }
  if env.createImageResult ≠ .success then
    (s, d.2 ++ [.createImage], false)
  else
    let img := s.nextHandle
    let s := { s with tex := { s.tex with imageH := img }, nextHandle := s.nextHandle + 1 }
    if ¬ env.memoryTypeFound then
      ({ s with tex := { s.tex with imageH := 0 } },
       d.2 ++ [.createImage, .destroyImage img], false)
    else if env.allocResult ≠ .success then
      ({ s with tex := { s.tex with imageH := 0 } },
       d.2 ++ [.createImage, .allocateMemory, .destroyImage img], false)
    else
      let mem := s.nextHandle
      let s := { s with nextHandle := s.nextHandle + 1,
                        tex := { s.tex with memoryH := mem, layout := .undefined,
                                            width := width, height := height,
                                            isSparse := false } }
      (s, d.2 ++ [.createImage, .allocateMemory, .bindImageMemory], true)

/-- Driver responses consumed by `createStagingBuffer`. -/
structure StagingEnv where
  createBufferResult : VkResult
  memoryTypeFound : Bool
  allocResult : VkResult
  deriving DecidableEq, Repr

/-- Embedding of `createStagingBuffer` (lines 790-820): creates a
`TRANSFER_SRC` buffer of the requested size and host-visible memory for it,
destroying the buffer again if no memory type fits or allocation fails.
Returns the created (buffer, memory) handle pair on success. -/
def createStagingBuffer (s : Renderer) (size : Nat) (env : StagingEnv) :
    Renderer × List VkCall × Option (Handle × Handle) :=
  if env.createBufferResult ≠ .success then (s, [.createBuffer size], none)
  else
    let buf := s.nextHandle
    let s := { s with nextHandle := s.nextHandle + 1 }
    if ¬ env.memoryTypeFound then
      (s, [.createBuffer size, .destroyBuffer buf], none)
    else if env.allocResult ≠ .success then
      (s, [.createBuffer size, .allocateMemory, .destroyBuffer buf], none)
    else
      let mem := s.nextHandle
      let s := { s with nextHandle := s.nextHandle + 1 }
      (s, [.createBuffer size, .allocateMemory, .bindBufferMemory], some (buf, mem))

/-- Driver responses consumed by `beginSingleTimeCommands`. -/
structure SingleTimeBeginEnv where
  allocResult : VkResult
  beginResult : VkResult
  deriving DecidableEq, Repr

/-- Driver responses consumed by `endSingleTimeCommands`. -/
structure SingleTimeEndEnv where
  endResult : VkResult
  submitResult : VkResult
  waitIdleResult : VkResult
  deriving DecidableEq, Repr

/-- Driver responses for one single-time command-buffer round trip. -/
structure SingleTimeEnv where
  beginEnv : SingleTimeBeginEnv
  endEnv : SingleTimeEndEnv
  deriving DecidableEq, Repr

/-- Embedding of `beginSingleTimeCommands` (lines 316-348): bails out on a
null device or command pool, then allocates and begins a one-shot command
buffer, marking the device lost when a failing result says so.  The `Bool`
says whether a valid command buffer was produced. -/
def beginSingleTimeCommands (s : Renderer) (env : SingleTimeBeginEnv) :
    Renderer × List VkCall × Bool :=
  if s.dev.deviceH = 0 ∨ s.sc.commandPoolH = 0 then (s, [], false)
  else
    let c1 := checkVulkanOperation env.allocResult
    if ¬ c1.ok then (applyCheck s c1, [.allocateCommandBuffers], false)
    else
      let c2 := checkVulkanOperation env.beginResult
      if ¬ c2.ok then
        (applyCheck s c2,
         [.allocateCommandBuffers, .beginCommandBuffer, .freeCommandBuffers], false)
      else (s, [.allocateCommandBuffers, .beginCommandBuffer], true)

/-- Embedding of `endSingleTimeCommands` (lines 350-384): bails out on an
invalid command buffer, null device or null graphics queue; otherwise ends,
submits and synchronously waits, marking the device lost on the
corresponding failures, and always frees the command buffer. -/
def endSingleTimeCommands (s : Renderer) (cmdValid : Bool)
    (env : SingleTimeEndEnv) : Renderer × List VkCall :=
  if ¬ cmdValid ∨ s.dev.deviceH = 0 ∨ s.dev.graphicsQueueH = 0 then (s, [])
  else
    let c1 := checkVulkanOperation env.endResult
    if ¬ c1.ok then (applyCheck s c1, [.endCommandBuffer, .freeCommandBuffers])
    else
      let c2 := checkVulkanOperation env.submitResult
      if ¬ c2.ok then
        (applyCheck s c2, [.endCommandBuffer, .queueSubmit, .freeCommandBuffers])
      else
        let s := if env.waitIdleResult = .errorDeviceLost then
                   { s with deviceLost := true } else s
        (s, [.endCommandBuffer, .queueSubmit, .queueWaitIdle, .freeCommandBuffers])

/-- Embedding of `transitionImageLayout` (lines 822-878): silently returns
on a null device, command pool or image; otherwise records a pipeline
barrier from `oldLayout` to `newLayout` in a single-time command buffer and
submits it synchronously. -/
def transitionImageLayout (s : Renderer) (image : Handle)
    (oldLayout newLayout : VkImageLayout) (env : SingleTimeEnv) :
    Renderer × List VkCall :=
  if s.dev.deviceH = 0 ∨ s.sc.commandPoolH = 0 ∨ image = 0 then (s, [])
  else
    let b := beginSingleTimeCommands s env.beginEnv
    if ¬ b.2.2 then (b.1, b.2.1)
    else
      let e := endSingleTimeCommands b.1 true env.endEnv
      (e.1, b.2.1 ++ [.pipelineBarrier oldLayout newLayout] ++ e.2)

/-- Embedding of `copyBufferToImage` (lines 880-905): silently returns on a
null buffer, null image or zero dimensions; otherwise records a
buffer-to-image copy of the full extent in a single-time command buffer. -/
def copyBufferToImage (s : Renderer) (buffer image : Handle)
    (width height : Nat) (env : SingleTimeEnv) : Renderer × List VkCall :=
  if buffer = 0 ∨ image = 0 ∨ width = 0 ∨ height = 0 then (s, [])
  else
    let b := beginSingleTimeCommands s env.beginEnv
    if ¬ b.2.2 then (b.1, b.2.1)
    else
      let e := endSingleTimeCommands b.1 true env.endEnv
      (e.1, b.2.1 ++ [.copyBufferToImage width height] ++ e.2)

/-- Which `return` of `UpdateImageFromData` a run took; instrumentation of
the embedding that records the first check that fired. -/
inductive UpdateExit
  | nullOrZeroInput
  | dimensionCapExceeded
  | pixelCountCapExceeded
  | deviceLostGate
  | nullDeviceGate
  | createTextureFailed
  | stagingBufferFailed
  | mapFailed
  | completed
  deriving DecidableEq, Repr

/-- Driver responses consumed by one `UpdateImageFromData` call. -/
structure UpdateEnv where
  ct : CreateTextureEnv
  sb : StagingEnv
  mapResult : VkResult
  toDst : SingleTimeEnv
  copyEnv : SingleTimeEnv
  toSrc : SingleTimeEnv
  deriving DecidableEq, Repr

/-- Embedding of `UpdateImageFromData` (lines 907-983).  Precondition
checks in source order: null pixel pointer or zero dimension (line 909),
per-side cap 65536 (line 914), pixel-count cap 67108864 (lines 919-921),
sticky device-lost flag (line 926), then the combined recheck of line 930
whose only new conjunct is a null device.  Past the gates: recreate the
texture iff `(width, height, isHdr, non-null image)` differs from the held
texture (lines 932-941, marking the device lost if recreation fails);
allocate and fill a staging buffer of `width*height*pixelSize` bytes
(pixelSize 8 for HDR, 4 otherwise); transition current→`TRANSFER_DST`,
copy, transition `TRANSFER_DST`→`TRANSFER_SRC`, each next step gated on the
device not having become lost, finally recording the tracked layout as
`TRANSFER_SRC`; the staging buffer is released on every path past its
creation. -/
def updateImageFromData (s : Renderer) (pixelData : Handle)
    (width height : Nat) (isHdr : Bool) (env : UpdateEnv) :
    Renderer × List VkCall × UpdateExit :=
  if pixelData = 0 ∨ width = 0 ∨ height = 0 then (s, [], .nullOrZeroInput)
  else if 65536 < width ∨ 65536 < height then (s, [], .dimensionCapExceeded)
  else if 67108864 < width * height then (s, [], .pixelCountCapExceeded)
  else if s.deviceLost then (s, [], .deviceLostGate)
  else if s.dev.deviceH = 0 then (s, [], .nullDeviceGate)
  else
    let needNewTexture : Bool :=
      (s.tex.width != width) || (s.tex.height != height) ||
      (s.tex.isHdr != isHdr) || (s.tex.imageH == 0)
    let step1 : Renderer × List VkCall × Bool :=
      if needNewTexture then createTexture s width height isHdr env.ct
      else (s, [], true)
    let s1 := step1.1
    let t1 := step1.2.1
    if ¬ step1.2.2 then ({ s1 with deviceLost := true }, t1, .createTextureFailed)
    else
      let pixelSize : Nat := if isHdr then 4 * 2 else 4
      let dataSize := width * height * pixelSize
      let st := createStagingBuffer s1 dataSize env.sb
      match st with
      | (s2, t2, none) => (s2, t1 ++ t2, .stagingBufferFailed)
      | (s2, t2, some (staging, stagingMem)) =>
        let c := checkVulkanOperation env.mapResult
        if ¬ c.ok then
          (applyCheck s2 c,
           t1 ++ t2 ++ [.mapMemory, .destroyBuffer staging, .freeMemory stagingMem],
           .mapFailed)
        else
          let tr := transitionImageLayout s2 s2.tex.imageH s2.tex.layout
              .transferDstOptimal env.toDst
          let s3 := tr.1
          let tail :=
            if s3.deviceLost then (s3, ([] : List VkCall))
            else
              let cp := copyBufferToImage s3 staging s3.tex.imageH width height env.copyEnv
              let s4 := cp.1
              if s4.deviceLost then (s4, cp.2)
              else
                let tr2 := transitionImageLayout s4 s4.tex.imageH .transferDstOptimal
                    .transferSrcOptimal env.toSrc
                let s5 := tr2.1
                if s5.deviceLost then (s5, cp.2 ++ tr2.2)
                else ({ s5 with tex := { s5.tex with layout := .transferSrcOptimal } },
                      cp.2 ++ tr2.2)
          (tail.1,
           t1 ++ t2 ++ [.mapMemory, .unmapMemory] ++ tr.2 ++ tail.2
              ++ [.destroyBuffer staging, .freeMemory stagingMem],
           .completed)

/-- A surface format entry as returned by
`vkGetPhysicalDeviceSurfaceFormatsKHR` (format plus color space). -/
structure SurfaceFormat where
  format : VkFormat
  colorSpace : Nat
  deriving DecidableEq, Repr

/-- Surface capabilities consumed by `createSwapchain`;
`currentExtentW = 4294967295` is the `UINT32_MAX` sentinel meaning the
surface size is determined by the swapchain extent. -/
structure SurfaceCaps where
  currentExtentW : Nat
  currentExtentH : Nat
  minExtentW : Nat
  minExtentH : Nat
  maxExtentW : Nat
  maxExtentH : Nat
  minImageCount : Nat
  maxImageCount : Nat
  deriving DecidableEq, Repr

/-- Driver responses consumed by one `createSwapchain` call.  `viewResults`
holds, per swapchain image, either the created view handle or `none` for a
failed `vkCreateImageView`. -/
structure SwapchainEnv where
  formats : List SurfaceFormat
  capsResult : VkResult
  caps : SurfaceCaps
  createResult : VkResult
  imageHandles : List Handle
  viewResults : List (Option Handle)
  poolResult : VkResult
  allocCmdBufsResult : VkResult
  cmdBufHandles : List Handle
  deriving DecidableEq, Repr

/-- `std::clamp` on `uint32_t`. -/
def clampNat (v lo hi : Nat) : Nat := min (max v lo) hi

/-- The surface-format preference of `createSwapchain` (lines 400-411):
first `B8G8R8A8_SRGB` if present, else first `B8G8R8A8_UNORM` if present,
else the first reported format. -/
def chooseSurfaceFormat (formats : List SurfaceFormat) : SurfaceFormat :=
  let first := formats.headD ⟨.undefined, 0⟩
  let chosen := (formats.find? (fun f => f.format == VkFormat.b8g8r8a8Srgb)).getD first
  if chosen.format ≠ .b8g8r8a8Srgb then
    (formats.find? (fun f => f.format == VkFormat.b8g8r8a8Unorm)).getD first
  else chosen

/-- The image-view creation loop of `createSwapchain` (lines 473-484),
`count` images: on the first failed view creation the function returns
false, leaving the later slots at the null value `resize` gave them. -/
def buildImageViews : Nat → List (Option Handle) → List Handle × List VkCall × Bool
  | 0, _ => ([], [], true)
  | Nat.succ n, [] => (List.replicate (Nat.succ n) 0, [], false)
  | Nat.succ n, none :: _ => (List.replicate (Nat.succ n) 0, [VkCall.createImageView], false)
  | Nat.succ n, some v :: rest =>
      let res := buildImageViews n rest
      (v :: res.1, VkCall.createImageView :: res.2.1, res.2.2)

/-- Embedding of `createSwapchain` (lines 386-501).  Zero width or height
is rejected first, before anything is queried or mutated (lines 389-391).
Then: choose the surface format, fetch capabilities (failure aborts), take
the extent verbatim from `currentExtent` unless the driver leaves it free
(then clamp the request into the min/max bounds), validate the extent
against the bounds, create the swapchain, fetch its images, create one view
per image, and (re)allocate one command buffer per image, creating the
command pool first if it does not exist yet. -/
def createSwapchain (s : Renderer) (width height : Nat) (env : SwapchainEnv) :
    Renderer × List VkCall × Bool :=
  if width = 0 ∨ height = 0 then (s, [], false)
  else if env.formats.length = 0 then (s, [], false)
  else
    let chosen := chooseSurfaceFormat env.formats
    let s := { s with sc := { s.sc with format := chosen.format } }
    if env.capsResult ≠ .success then (s, [], false)
    else
      let caps := env.caps
      let extent :=
        if caps.currentExtentW = 4294967295 then
          (clampNat width caps.minExtentW caps.maxExtentW,
           clampNat height caps.minExtentH caps.maxExtentH)
        else (caps.currentExtentW, caps.currentExtentH)
      let s := { s with sc := { s.sc with extentW := extent.1, extentH := extent.2 } }
      if s.sc.extentW < caps.minExtentW ∨ s.sc.extentH < caps.minExtentH ∨
         caps.maxExtentW < s.sc.extentW ∨ caps.maxExtentH < s.sc.extentH then
        (s, [], false)
      else if env.createResult ≠ .success then (s, [.createSwapchainKHR], false)
      else
        let sc := s.nextHandle
        let s := { s with nextHandle := s.nextHandle + 1,
                          sc := { s.sc with swapchainH := sc,
                                            images := env.imageHandles } }
        let views := buildImageViews env.imageHandles.length env.viewResults
        let s := { s with sc := { s.sc with imageViews := views.1 } }
        let t0 := [VkCall.createSwapchainKHR, VkCall.getSwapchainImagesKHR] ++ views.2.1
        if ¬ views.2.2 then (s, t0, false)
        else if s.sc.commandBuffers.length ≠ env.imageHandles.length then
          let pool :=
            if s.sc.commandPoolH = 0 then
              if env.poolResult = .success then
                ({ s with nextHandle := s.nextHandle + 1,
                          sc := { s.sc with commandPoolH := s.nextHandle } },
                 [VkCall.createCommandPool], true)
              else (s, [VkCall.createCommandPool], false)
            else (s, ([] : List VkCall), true)
          let s := pool.1
          if ¬ pool.2.2 then (s, t0 ++ pool.2.1, false)
          else
            let tFree := if s.sc.commandBuffers ≠ [] then [VkCall.freeCommandBuffers] else []
            if env.allocCmdBufsResult ≠ .success then
              ({ s with sc := { s.sc with
                    commandBuffers := List.replicate env.imageHandles.length 0 } },
               t0 ++ pool.2.1 ++ tFree ++ [.allocateCommandBuffers], false)
            else
              ({ s with sc := { s.sc with commandBuffers := env.cmdBufHandles } },
               t0 ++ pool.2.1 ++ tFree ++ [.allocateCommandBuffers], true)
        else (s, t0, true)

/-- Embedding of `destroySwapchain` (lines 503-512): destroys each non-null
image view, clears the view list, destroys and nulls the swapchain.
(`swapchainImages_` is not cleared, as in the source.) -/
def destroySwapchain (s : Renderer) : Renderer × List VkCall :=
  let viewCalls := s.sc.imageViews.filterMap fun v =>
    if v ≠ 0 then some (VkCall.destroyImageView v) else none
  let scCalls := if s.sc.swapchainH ≠ 0 then [VkCall.destroySwapchainKHR s.sc.swapchainH] else []
  ({ s with sc := { s.sc with imageViews := [], swapchainH := 0 } },
   viewCalls ++ scCalls)

/-- Embedding of `recreateSwapchain` (lines 536-540): device-idle wait,
destroy, create. -/
def recreateSwapchain (s : Renderer) (width height : Nat) (env : SwapchainEnv) :
    Renderer × List VkCall :=
  let d := destroySwapchain s
  let c := createSwapchain d.1 width height env
  (c.1, VkCall.deviceWaitIdle :: (d.2 ++ c.2.1))

/-- Embedding of `Resize` (lines 784-788): no-op on zero width or height,
no-op when the stored extent already matches, otherwise a full swapchain
recreation. -/
def resize (s : Renderer) (width height : Nat) (env : SwapchainEnv) :
    Renderer × List VkCall :=
  if width = 0 ∨ height = 0 then (s, [])
  else if s.sc.extentW = width ∧ s.sc.extentH = height then (s, [])
  else recreateSwapchain s width height env

/-- Embedding of `renderSoftwareFallback` (lines 1738-1777): no-op when the
fallback buffer is empty or the fallback window handle is null; resizes the
buffer to `width*height*4` bytes when the window size changed.  The pixel
fill and the GDI blit touch only the buffer contents and the screen, which
the model carries as the buffer size only. -/
def renderSoftwareFallback (s : Renderer) (width height : Nat) : Renderer :=
  if s.fb.bufferSize = 0 ∨ s.fb.hwnd = 0 then s
  else if width ≠ s.fb.width ∨ height ≠ s.fb.height then
    { s with fb := { s.fb with width := width, height := height,
                               bufferSize := width * height * 4 } }
  else s

/-- The guard of the blit path in `Render` (line 1125): a texture is held
and its tracked layout is `TRANSFER_SRC_OPTIMAL`. -/
def renderBlitReady (s : Renderer) : Bool :=
  decide (s.tex.imageH ≠ 0 ∧ s.tex.layout = .transferSrcOptimal)

/-- Driver responses consumed by one `Render` call.  `castX0..castY1` are
the values of the four `static_cast<int32_t>` conversions of the float
destination-rectangle corners (lines 1168-1171); quantifying over them
covers every zoom/offset input, since those only influence the floats that
feed the casts.  The zoom sanitisation of lines 1049-1051 rewrites a local
float consumed by the same computation and needs no state in the model. -/
structure RenderEnv where
  sc : SwapchainEnv
  acquireResult : VkResult
  scAcq : SwapchainEnv
  imageUsedBefore : Bool
  beginResult : VkResult
  castX0 : Int
  castY0 : Int
  castX1 : Int
  castY1 : Int
  endResult : VkResult
  submitResult : VkResult
  presentResult : VkResult
  deriving DecidableEq, Repr

/-- The per-frame phase of `Render` (lines 1064-1286), from the wait on
the current frame's fence onward: acquire (OUT_OF_DATE recreates the
swapchain and returns), record clear + optional blit with the clamped
destination rectangle + layout transitions, submit (any failure marks the
device lost and returns before the frame counter moves), present
(OUT_OF_DATE/SUBOPTIMAL and unknown errors mark the swapchain out of date,
DEVICE_LOST marks the device lost, each returning early), and only after
full success advance
`currentFrame_ = (currentFrame_ + 1) % MAX_FRAMES_IN_FLIGHT`. -/
def renderFrame (s0 : Renderer) (width height : Nat) (env : RenderEnv) :
    Renderer × List VkCall :=
    let t0 := [VkCall.waitForFences]
    if env.acquireResult = .errorOutOfDateKHR then
      let r := recreateSwapchain s0 width height env.scAcq
      (r.1, t0 ++ [.acquireNextImageKHR] ++ r.2)
    else
      let tA := t0 ++ [VkCall.acquireNextImageKHR, VkCall.resetCommandBuffer]
      let cB := checkVulkanOperation env.beginResult
      if ¬ cB.ok then (applyCheck s0 cB, tA ++ [.beginCommandBuffer])
      else
        let initialLayout :=
          if env.imageUsedBefore then VkImageLayout.presentSrcKHR
          else VkImageLayout.undefined
        let blitCalls :=
          if renderBlitReady s0 then
            let r := clampDstRect env.castX0 env.castY0 env.castX1 env.castY1
              (Int.ofNat s0.sc.extentW) (Int.ofNat s0.sc.extentH)
            [VkCall.blitImage r.x0 r.y0 r.x1 r.y1]
          else []
        let uiCalls :=
          if renderBlitReady s0 then [] else [VkCall.renderInstructionalUI]
        let tB := tA ++ [VkCall.beginCommandBuffer,
                         VkCall.pipelineBarrier initialLayout .transferDstOptimal,
                         VkCall.clearColorImage] ++ blitCalls ++ uiCalls
                     ++ [VkCall.pipelineBarrier .transferDstOptimal .presentSrcKHR]
        let cE := checkVulkanOperation env.endResult
        if ¬ cE.ok then (applyCheck s0 cE, tB ++ [.endCommandBuffer])
        else
          let tC := tB ++ [VkCall.endCommandBuffer, VkCall.resetFences, VkCall.queueSubmit]
          if env.submitResult = .errorDeviceLost then ({ s0 with deviceLost := true }, tC)
          else if env.submitResult ≠ .success then ({ s0 with deviceLost := true }, tC)
          else
            let tD := tC ++ [VkCall.queuePresentKHR]
            match env.presentResult with
            | .errorOutOfDateKHR => ({ s0 with swapchainOutOfDate := true }, tD)
            | .suboptimalKHR => ({ s0 with swapchainOutOfDate := true }, tD)
            | .errorDeviceLost => ({ s0 with deviceLost := true }, tD)
            | .errorOther => ({ s0 with swapchainOutOfDate := true }, tD)
            | .success =>
                ({ s0 with sync := { s0.sync with
                     currentFrame := (s0.sync.currentFrame + 1) % maxFramesInFlight } },
                 tD)

/-- Embedding of `Render` (lines 1028-1286).  Gates in source order:
dimension validation (line 1033), software fallback when Vulkan is
unavailable (lines 1038-1041), the sticky device-lost gate (lines
1044-1046), null device/swapchain (line 1056), swapchain recreation on
extent mismatch (lines 1060-1062); then the per-frame phase
`renderFrame`. -/
def render (s : Renderer) (width height : Nat) (env : RenderEnv) :
    Renderer × List VkCall :=
  if width = 0 ∨ height = 0 ∨ 65536 < width ∨ 65536 < height then (s, [])
  else if ¬ s.vulkanAvailable then (renderSoftwareFallback s width height, [])
  else if s.deviceLost then (s, [])
  else if s.dev.deviceH = 0 ∨ s.sc.swapchainH = 0 then (s, [])
  else
    let step0 :=
      if s.sc.extentW ≠ width ∨ s.sc.extentH ≠ height then
        recreateSwapchain s width height env.sc
      else (s, [])
    let r := renderFrame step0.1 width height env
    (r.1, step0.2 ++ r.2)

/-- Embedding of `createSyncObjects` (lines 514-534), success path: the
three per-frame rings get `MAX_FRAMES_IN_FLIGHT` handles each (fences
created signaled) and the frame counter is reset to `0`.  On a failed
creation the source returns false with whatever the driver wrote so far;
the model takes the written lists from the environment. -/
def createSyncObjects (s : Renderer) (allOk : Bool)
    (imgSems renSems fences : List Handle) : Renderer × List VkCall × Bool :=
  if allOk then
    ({ s with sync := { s.sync with
         imageAvailableSemaphores := imgSems.take maxFramesInFlight,
         renderFinishedSemaphores := renSems.take maxFramesInFlight,
         inFlightFences := fences.take maxFramesInFlight,
         currentFrame := 0 } },
     [VkCall.createSemaphore, VkCall.createSemaphore, VkCall.createFence,
      VkCall.createSemaphore, VkCall.createSemaphore, VkCall.createFence], true)
  else
    ({ s with sync := { s.sync with
         imageAvailableSemaphores := imgSems, renderFinishedSemaphores := renSems,
         inFlightFences := fences } }, [], false)

/-- Embedding of `Shutdown` (lines 678-782).  The two error flags are reset
first.  A null device means only the surface and instance can be released
(early return).  A device-lost wait-idle result skips all device-dependent
cleanup: the device handle is dropped and only surface and instance are
destroyed.  Otherwise resources are released in reverse creation order:
texture, swapchain, per-frame sync rings, legacy sync objects, command
pool, device, surface, instance, Vulkan library, and the queue handles are
reset.  (`textRenderer_.Shutdown()` concerns the out-of-scope text overlay
renderer.) -/
def shutdown (s : Renderer) (waitIdleResult : VkResult) : Renderer × List VkCall :=
  let s := { s with deviceLost := false, swapchainOutOfDate := false }
  if s.dev.deviceH = 0 then
    let t1 := if s.dev.surfaceH ≠ 0 ∧ s.dev.instanceH ≠ 0 then
                [VkCall.destroySurfaceKHR s.dev.surfaceH] else []
    let t2 := if s.dev.instanceH ≠ 0 then [VkCall.destroyInstance s.dev.instanceH] else []
    ({ s with dev := { s.dev with
         surfaceH := if s.dev.surfaceH ≠ 0 ∧ s.dev.instanceH ≠ 0 then 0 else s.dev.surfaceH,
         instanceH := 0 } }, t1 ++ t2)
  else if waitIdleResult = .errorDeviceLost then
    let s := { s with dev := { s.dev with deviceH := 0 } }
    let t1 := if s.dev.surfaceH ≠ 0 ∧ s.dev.instanceH ≠ 0 then
                [VkCall.destroySurfaceKHR s.dev.surfaceH] else []
    let t2 := if s.dev.instanceH ≠ 0 then [VkCall.destroyInstance s.dev.instanceH] else []
    ({ s with dev := { s.dev with
         surfaceH := if s.dev.surfaceH ≠ 0 ∧ s.dev.instanceH ≠ 0 then 0 else s.dev.surfaceH,
         instanceH := 0 } }, VkCall.deviceWaitIdle :: (t1 ++ t2))
  else
    let dTex := destroyTexture s
    let dSc := destroySwapchain dTex.1
    let s2 := dSc.1
    let tSem1 := s2.sync.imageAvailableSemaphores.filterMap fun v =>
      if v ≠ 0 then some (VkCall.destroySemaphore v) else none
    let tSem2 := s2.sync.renderFinishedSemaphores.filterMap fun v =>
      if v ≠ 0 then some (VkCall.destroySemaphore v) else none
    let tFen := s2.sync.inFlightFences.filterMap fun v =>
      if v ≠ 0 then some (VkCall.destroyFence v) else none
    let tLegacy :=
      (if s2.sync.imageAvailableH ≠ 0 then [VkCall.destroySemaphore s2.sync.imageAvailableH] else []) ++
      (if s2.sync.renderFinishedH ≠ 0 then [VkCall.destroySemaphore s2.sync.renderFinishedH] else []) ++
      (if s2.sync.inFlightFenceH ≠ 0 then [VkCall.destroyFence s2.sync.inFlightFenceH] else [])
    let tPool := if s2.sc.commandPoolH ≠ 0 then [VkCall.destroyCommandPool s2.sc.commandPoolH] else []
    let tDev := if s2.dev.deviceH ≠ 0 then [VkCall.destroyDevice s2.dev.deviceH] else []
    let tSurf := if s2.dev.surfaceH ≠ 0 ∧ s2.dev.instanceH ≠ 0 then
                   [VkCall.destroySurfaceKHR s2.dev.surfaceH] else []
    let tInst := if s2.dev.instanceH ≠ 0 then [VkCall.destroyInstance s2.dev.instanceH] else []
    let tLib := if s2.dev.vulkanLibraryH ≠ 0 then [VkCall.freeLibrary s2.dev.vulkanLibraryH] else []
    ({ s2 with
         sync := { s2.sync with
                   imageAvailableSemaphores := [],
                   renderFinishedSemaphores := [],
                   inFlightFences := [],
                   imageAvailableH := 0, renderFinishedH := 0, inFlightFenceH := 0 },
         sc := { s2.sc with commandPoolH := 0 },
         dev := { s2.dev with
                  deviceH := 0,
                  surfaceH := if s2.dev.surfaceH ≠ 0 ∧ s2.dev.instanceH ≠ 0 then 0
                              else s2.dev.surfaceH,
                  instanceH := 0, vulkanLibraryH := 0,
                  graphicsQueueH := 0, presentQueueH := 0 } },
     VkCall.deviceWaitIdle ::
       (dTex.2 ++ dSc.2 ++ tSem1 ++ tSem2 ++ tFen ++ tLegacy ++ tPool ++ tDev
          ++ tSurf ++ tInst ++ tLib))

/-! ### Concrete states and environments used by witnesses -/

/-- A renderer with nothing initialized (all handles null), as after
construction. -/
def emptyRenderer : Renderer where
  dev := { instanceH := 0, physicalDeviceH := 0, deviceH := 0, surfaceH := 0,
           graphicsQueueH := 0, presentQueueH := 0, vulkanLibraryH := 0 }
  sc := { swapchainH := 0, format := .undefined, extentW := 0, extentH := 0,
          images := [], imageViews := [], commandBuffers := [], commandPoolH := 0 }
  sync := { imageAvailableSemaphores := [], renderFinishedSemaphores := [],
            inFlightFences := [], currentFrame := 0, imageAvailableH := 0,
            renderFinishedH := 0, inFlightFenceH := 0 }
  tex := { imageH := 0, memoryH := 0, format := .undefined, layout := .undefined,
           width := 0, height := 0, isHdr := false, isSparse := false, tiles := [] }
  deviceLost := false
  swapchainOutOfDate := false
  vulkanAvailable := false
  fb := { hwnd := 0, width := 800, height := 600, bufferSize := 0 }
  nextHandle := 1

/-- A fully initialized renderer with an 800x600 swapchain, no texture
loaded yet. -/
def readyRenderer : Renderer :=
  { emptyRenderer with
      dev := { instanceH := 1, physicalDeviceH := 2, deviceH := 3, surfaceH := 4,
               graphicsQueueH := 5, presentQueueH := 6, vulkanLibraryH := 21 },
      sc := { swapchainH := 7, format := .b8g8r8a8Srgb, extentW := 800,
              extentH := 600, images := [8, 9], imageViews := [10, 11],
              commandBuffers := [12, 13], commandPoolH := 14 },
      sync := { imageAvailableSemaphores := [15, 16],
                renderFinishedSemaphores := [17, 18], inFlightFences := [19, 20],
                currentFrame := 0, imageAvailableH := 0, renderFinishedH := 0,
                inFlightFenceH := 0 },
      vulkanAvailable := true,
      nextHandle := 22 }

/-- All driver calls of one texture creation succeed. -/
def okCreateTextureEnv : CreateTextureEnv :=
  { createImageResult := .success, memoryTypeFound := true, allocResult := .success }

/-- All driver calls of one staging-buffer creation succeed. -/
def okStagingEnv : StagingEnv :=
  { createBufferResult := .success, memoryTypeFound := true, allocResult := .success }

/-- All driver calls of one single-time command round trip succeed. -/
def okSingleTimeEnv : SingleTimeEnv :=
  { beginEnv := { allocResult := .success, beginResult := .success },
    endEnv := { endResult := .success, submitResult := .success,
                waitIdleResult := .success } }

/-- All driver calls of one `UpdateImageFromData` succeed. -/
def okUpdateEnv : UpdateEnv :=
  { ct := okCreateTextureEnv, sb := okStagingEnv, mapResult := .success,
    toDst := okSingleTimeEnv, copyEnv := okSingleTimeEnv, toSrc := okSingleTimeEnv }

/-- A swapchain-creation environment in which every driver call succeeds. -/
def okSwapchainEnv : SwapchainEnv where
  formats := [⟨.b8g8r8a8Srgb, 0⟩]
  capsResult := .success
  caps := { currentExtentW := 800, currentExtentH := 600, minExtentW := 1,
            minExtentH := 1, maxExtentW := 65536, maxExtentH := 65536,
            minImageCount := 2, maxImageCount := 3 }
  createResult := .success
  imageHandles := [30, 31]
  viewResults := [some 32, some 33]
  poolResult := .success
  allocCmdBufsResult := .success
  cmdBufHandles := [34, 35]

/-- A render environment in which every driver call succeeds. -/
def okRenderEnv : RenderEnv where
  sc := okSwapchainEnv
  acquireResult := .success
  scAcq := okSwapchainEnv
  imageUsedBefore := false
  beginResult := .success
  castX0 := 0
  castY0 := 0
  castX1 := 800
  castY1 := 600
  endResult := .success
  submitResult := .success
  presentResult := .success

/-- A renderer running on the software fallback (Vulkan unavailable). -/
def fallbackRenderer : Renderer :=
  { emptyRenderer with fb := { hwnd := 40, width := 800, height := 600,
                               bufferSize := 1920000 } }

/-- The initialized renderer after its device was lost. -/
def lostReadyRenderer : Renderer := { readyRenderer with deviceLost := true }

/-- `n` consecutive `Render` calls: the state iteration. -/
def renderIter (width height : Nat) (env : RenderEnv) : Nat → Renderer → Renderer
  | 0, s => s
  | Nat.succ n, s => renderIter width height env n (render s width height env).1

/-- The layout-transition barriers of a driver-call list, in order. -/
def barrierEvents (t : List VkCall) : List (VkImageLayout × VkImageLayout) :=
  t.filterMap fun c =>
    match c with
    | VkCall.pipelineBarrier a b => some (a, b)
    | _ => none

/-- The initialized renderer holding a 640x480 LDR texture in the
blit-ready layout. -/
def texturedRenderer : Renderer :=
  { readyRenderer with
      tex := { imageH := 22, memoryH := 23, format := .r8g8b8a8Srgb,
               layout := .transferSrcOptimal, width := 640, height := 480,
               isHdr := false, isSparse := false, tiles := [] },
      nextHandle := 24 }

/-! ### Claim C7: blit destination rectangle clamping -/

/-- C7: for every post-cast quadruple of destination corner coordinates —
hence for every zoom and offset input, pathological values such as
`zoom = 1e9` or `offset = 1e8` included, since zoom and offset only
influence the float values feeding the casts — and every swapchain of
positive extent, the clamping of `Render` (lines 1178-1197) yields corners
inside `[0, surfaceWidth] × [0, surfaceHeight]`, and the rectangle is never
degenerate: `dst0 < dst1` holds in both axes. -/
theorem c7_blit_rect_clamped (dstX0 dstY0 dstX1 dstY1 scW scH : Int)
    (hW : 1 ≤ scW) (hH : 1 ≤ scH) :
    0 ≤ (clampDstRect dstX0 dstY0 dstX1 dstY1 scW scH).x0 ∧
    (clampDstRect dstX0 dstY0 dstX1 dstY1 scW scH).x0 <
      (clampDstRect dstX0 dstY0 dstX1 dstY1 scW scH).x1 ∧
    (clampDstRect dstX0 dstY0 dstX1 dstY1 scW scH).x1 ≤ scW ∧
    0 ≤ (clampDstRect dstX0 dstY0 dstX1 dstY1 scW scH).y0 ∧
    (clampDstRect dstX0 dstY0 dstX1 dstY1 scW scH).y0 <
      (clampDstRect dstX0 dstY0 dstX1 dstY1 scW scH).y1 ∧
    (clampDstRect dstX0 dstY0 dstX1 dstY1 scW scH).y1 ≤ scH := by
  unfold clampDstRect
  dsimp only
  split_ifs <;> refine ⟨?_, ?_, ?_, ?_, ?_, ?_⟩ <;> simp <;> omega

/-- Witness for C7 at the pathological input of the spec: a rectangle cast
from `offset = 1e8` (corners far right of an 800x600 surface). -/
theorem c7_blit_rect_clamped_witness :
    0 ≤ (clampDstRect 99999600 49999700 100000400 50000300 800 600).x0 ∧
    (clampDstRect 99999600 49999700 100000400 50000300 800 600).x0 <
      (clampDstRect 99999600 49999700 100000400 50000300 800 600).x1 ∧
    (clampDstRect 99999600 49999700 100000400 50000300 800 600).x1 ≤ 800 ∧
    0 ≤ (clampDstRect 99999600 49999700 100000400 50000300 800 600).y0 ∧
    (clampDstRect 99999600 49999700 100000400 50000300 800 600).y0 <
      (clampDstRect 99999600 49999700 100000400 50000300 800 600).y1 ∧
    (clampDstRect 99999600 49999700 100000400 50000300 800 600).y1 ≤ 600 :=
  c7_blit_rect_clamped 99999600 49999700 100000400 50000300 800 600
    (by decide) (by decide)

/-! ### Claim C2: zero-dimension swapchain creation and resize -/

/-- C2: for every width/height pair with a zero component,
`createSwapchain` returns false at once and `Resize` is a no-op; in both
cases the renderer state — the stored swapchain extent included — is
returned unchanged and no driver call is issued, so no swapchain creation
is even attempted. -/
theorem c2_zero_extent_rejected (s : Renderer) (width height : Nat)
    (env : SwapchainEnv) (hz : width = 0 ∨ height = 0) :
    createSwapchain s width height env = (s, [], false) ∧
    resize s width height env = (s, []) := by
  constructor
  · unfold createSwapchain
    rw [if_pos hz]
  · unfold resize
    rw [if_pos hz]

/-- Witness for C2 at `width = 0`, `height = 600` on the initialized
renderer. -/
theorem c2_zero_extent_rejected_witness :
    createSwapchain readyRenderer 0 600 okSwapchainEnv = (readyRenderer, [], false) ∧
    resize readyRenderer 0 600 okSwapchainEnv = (readyRenderer, []) :=
  c2_zero_extent_rejected readyRenderer 0 600 okSwapchainEnv (Or.inl rfl)

/-! ### Claim C5: UpdateImageFromData precondition checks -/

/-- C5: the precondition checks of `UpdateImageFromData` run in the claimed
order — null pointer / zero dimension first, then the 65536-per-side cap,
then the 67108864 combined-pixel cap, then the sticky device-lost flag —
and each failing check returns with the renderer state unchanged and an
empty driver-call list (no GPU call is attempted).  The recorded exit marks
which check fired first. -/
theorem c5_update_precondition_order (s : Renderer) (pixelData width height : Nat)
    (isHdr : Bool) (env : UpdateEnv) :
    (pixelData = 0 ∨ width = 0 ∨ height = 0 →
      updateImageFromData s pixelData width height isHdr env =
        (s, [], .nullOrZeroInput)) ∧
    (¬(pixelData = 0 ∨ width = 0 ∨ height = 0) →
     (65536 < width ∨ 65536 < height) →
      updateImageFromData s pixelData width height isHdr env =
        (s, [], .dimensionCapExceeded)) ∧
    (¬(pixelData = 0 ∨ width = 0 ∨ height = 0) →
     ¬(65536 < width ∨ 65536 < height) → 67108864 < width * height →
      updateImageFromData s pixelData width height isHdr env =
        (s, [], .pixelCountCapExceeded)) ∧
    (¬(pixelData = 0 ∨ width = 0 ∨ height = 0) →
     ¬(65536 < width ∨ 65536 < height) → ¬(67108864 < width * height) →
     s.deviceLost = true →
      updateImageFromData s pixelData width height isHdr env =
        (s, [], .deviceLostGate)) := by
  refine ⟨fun h1 => ?_, fun h1 h2 => ?_, fun h1 h2 h3 => ?_, fun h1 h2 h3 h4 => ?_⟩
  · unfold updateImageFromData
    rw [if_pos h1]
  · unfold updateImageFromData
    rw [if_neg h1, if_pos h2]
  · unfold updateImageFromData
    rw [if_neg h1, if_neg h2, if_pos h3]
  · unfold updateImageFromData
    rw [if_neg h1, if_neg h2, if_neg h3, if_pos h4]

/-- Witness for C5: each of the four precondition gates fired at a concrete
input (null pointer; 70000-pixel side; 9000x8000 pixel count; device
already lost). -/
theorem c5_update_precondition_order_witness :
    updateImageFromData readyRenderer 0 10 10 false okUpdateEnv =
      (readyRenderer, [], .nullOrZeroInput) ∧
    updateImageFromData readyRenderer 1 70000 10 false okUpdateEnv =
      (readyRenderer, [], .dimensionCapExceeded) ∧
    updateImageFromData readyRenderer 1 9000 8000 false okUpdateEnv =
      (readyRenderer, [], .pixelCountCapExceeded) ∧
    updateImageFromData { readyRenderer with deviceLost := true } 1 10 10 false
        okUpdateEnv =
      ({ readyRenderer with deviceLost := true }, [], .deviceLostGate) :=
  ⟨(c5_update_precondition_order readyRenderer 0 10 10 false okUpdateEnv).1
      (Or.inl rfl),
   (c5_update_precondition_order readyRenderer 1 70000 10 false okUpdateEnv).2.1
      (by decide) (by decide),
   (c5_update_precondition_order readyRenderer 1 9000 8000 false okUpdateEnv).2.2.1
      (by decide) (by decide) (by decide),
   (c5_update_precondition_order { readyRenderer with deviceLost := true } 1 10 10
      false okUpdateEnv).2.2.2 (by decide) (by decide) (by decide) rfl⟩

/-! ### Claim C6: software fallback and the sticky device-lost gate -/

/-- With Vulkan available and the device-lost flag set, `Render` returns
with no driver call and no state change (with invalid dimensions the
dimension gate fires first, also a no-op). -/
theorem render_lost_noop (s : Renderer) (width height : Nat) (env : RenderEnv)
    (hA : s.vulkanAvailable = true) (hL : s.deviceLost = true) :
    render s width height env = (s, []) := by
  unfold render
  by_cases h1 : width = 0 ∨ height = 0 ∨ 65536 < width ∨ 65536 < height
  · rw [if_pos h1]
  · rw [if_neg h1, if_neg (by simp [hA]), if_pos (by simp [hL])]

/-- While the device-lost flag is set, any sequence of `Render` calls
leaves the state fixed (the flag is sticky and each call is a no-op). -/
theorem render_lost_sticky (s : Renderer)
    (hA : s.vulkanAvailable = true) (hL : s.deviceLost = true) :
    ∀ calls : List (Nat × Nat × RenderEnv),
      calls.foldl (fun st c => (render st c.1 c.2.1 c.2.2).1) s = s := by
  intro calls
  induction calls with
  | nil => rfl
  | cons c cs ih =>
      simp only [List.foldl_cons]
      rw [render_lost_noop s c.1 c.2.1 c.2.2 hA hL]
      exact ih

/-- C6: with valid dimensions, `Render` delegates entirely to the software
fallback (no driver call) when Vulkan is unavailable; and when the sticky
device-lost flag is set it returns immediately with no driver call and no
state change, which then holds for every subsequent `Render` call — with
any dimensions and driver responses — while the flag remains set. -/
theorem c6_render_availability_gates (s : Renderer) (width height : Nat)
    (env : RenderEnv)
    (hdim : ¬(width = 0 ∨ height = 0 ∨ 65536 < width ∨ 65536 < height)) :
    (s.vulkanAvailable = false →
      render s width height env = (renderSoftwareFallback s width height, [])) ∧
    (s.vulkanAvailable = true → s.deviceLost = true →
      render s width height env = (s, []) ∧
      ∀ calls : List (Nat × Nat × RenderEnv),
        calls.foldl (fun st c => (render st c.1 c.2.1 c.2.2).1) s = s) := by
  constructor
  · intro hA
    unfold render
    rw [if_neg hdim, if_pos (by simp [hA])]
  · intro hA hL
    exact ⟨render_lost_noop s width height env hA hL,
           render_lost_sticky s hA hL⟩

/-- Witness for C6: the fallback delegation on a Vulkan-less renderer, the
immediate no-op on a lost device, and two further calls that leave the lost
state fixed. -/
theorem c6_render_availability_gates_witness :
    render fallbackRenderer 800 600 okRenderEnv =
      (renderSoftwareFallback fallbackRenderer 800 600, []) ∧
    render lostReadyRenderer 800 600 okRenderEnv = (lostReadyRenderer, []) ∧
    [(800, 600, okRenderEnv), (1024, 768, okRenderEnv)].foldl
        (fun st c => (render st c.1 c.2.1 c.2.2).1) lostReadyRenderer =
      lostReadyRenderer :=
  ⟨(c6_render_availability_gates fallbackRenderer 800 600 okRenderEnv
      (by decide)).1 rfl,
   ((c6_render_availability_gates lostReadyRenderer 800 600 okRenderEnv
      (by decide)).2 rfl rfl).1,
   ((c6_render_availability_gates lostReadyRenderer 800 600 okRenderEnv
      (by decide)).2 rfl rfl).2 [(800, 600, okRenderEnv), (1024, 768, okRenderEnv)]⟩

/-! ### Claim C1: frame-ring advancement -/

/-- `createSwapchain` only touches the swapchain group and the handle
counter: device, sync, texture, flags and fallback state are preserved. -/
theorem createSwapchain_preserves (s : Renderer) (w h : Nat) (env : SwapchainEnv) :
    (createSwapchain s w h env).1.dev = s.dev ∧
    (createSwapchain s w h env).1.sync = s.sync ∧
    (createSwapchain s w h env).1.tex = s.tex ∧
    (createSwapchain s w h env).1.deviceLost = s.deviceLost ∧
    (createSwapchain s w h env).1.swapchainOutOfDate = s.swapchainOutOfDate ∧
    (createSwapchain s w h env).1.vulkanAvailable = s.vulkanAvailable ∧
    (createSwapchain s w h env).1.fb = s.fb := by
  unfold createSwapchain
  dsimp only
  by_cases h1 : w = 0 ∨ h = 0
  · rw [if_pos h1]; exact ⟨rfl, rfl, rfl, rfl, rfl, rfl, rfl⟩
  rw [if_neg h1]
  by_cases h2 : env.formats.length = 0
  · rw [if_pos h2]; exact ⟨rfl, rfl, rfl, rfl, rfl, rfl, rfl⟩
  rw [if_neg h2]
  by_cases h3 : env.capsResult ≠ VkResult.success
  · rw [if_pos h3]; exact ⟨rfl, rfl, rfl, rfl, rfl, rfl, rfl⟩
  rw [if_neg h3]
  generalize (if env.caps.currentExtentW = 4294967295 then
      (clampNat w env.caps.minExtentW env.caps.maxExtentW,
       clampNat h env.caps.minExtentH env.caps.maxExtentH)
    else (env.caps.currentExtentW, env.caps.currentExtentH)) = ext
  by_cases h4 : ext.1 < env.caps.minExtentW ∨ ext.2 < env.caps.minExtentH ∨
      env.caps.maxExtentW < ext.1 ∨ env.caps.maxExtentH < ext.2
  · rw [if_pos h4]; exact ⟨rfl, rfl, rfl, rfl, rfl, rfl, rfl⟩
  rw [if_neg h4]
  by_cases h5 : env.createResult ≠ VkResult.success
  · rw [if_pos h5]; exact ⟨rfl, rfl, rfl, rfl, rfl, rfl, rfl⟩
  rw [if_neg h5]
  by_cases h6 : ¬ (buildImageViews env.imageHandles.length env.viewResults).2.2 = true
  · rw [if_pos h6]; exact ⟨rfl, rfl, rfl, rfl, rfl, rfl, rfl⟩
  rw [if_neg h6]
  by_cases h7 : s.sc.commandBuffers.length ≠ env.imageHandles.length
  case neg => rw [if_neg h7]; exact ⟨rfl, rfl, rfl, rfl, rfl, rfl, rfl⟩
  rw [if_pos h7]
  by_cases h8 : s.sc.commandPoolH = 0
  · rw [if_pos h8]
    by_cases h9 : env.poolResult = VkResult.success
    · rw [if_pos h9]
      dsimp only
      rw [if_neg (by decide : ¬¬true = true)]
      by_cases h10 : env.allocCmdBufsResult ≠ VkResult.success
      · rw [if_pos h10]; exact ⟨rfl, rfl, rfl, rfl, rfl, rfl, rfl⟩
      · rw [if_neg h10]; exact ⟨rfl, rfl, rfl, rfl, rfl, rfl, rfl⟩
    · rw [if_neg h9]
      dsimp only
      rw [if_pos (by decide : ¬false = true)]
      exact ⟨rfl, rfl, rfl, rfl, rfl, rfl, rfl⟩
  · rw [if_neg h8]
    dsimp only
    rw [if_neg (by decide : ¬¬true = true)]
    by_cases h10 : env.allocCmdBufsResult ≠ VkResult.success
    · rw [if_pos h10]; exact ⟨rfl, rfl, rfl, rfl, rfl, rfl, rfl⟩
    · rw [if_neg h10]; exact ⟨rfl, rfl, rfl, rfl, rfl, rfl, rfl⟩

/-- `recreateSwapchain` likewise preserves everything outside the
swapchain group and the handle counter. -/
theorem recreateSwapchain_preserves (s : Renderer) (w h : Nat) (env : SwapchainEnv) :
    (recreateSwapchain s w h env).1.dev = s.dev ∧
    (recreateSwapchain s w h env).1.sync = s.sync ∧
    (recreateSwapchain s w h env).1.tex = s.tex ∧
    (recreateSwapchain s w h env).1.deviceLost = s.deviceLost ∧
    (recreateSwapchain s w h env).1.swapchainOutOfDate = s.swapchainOutOfDate ∧
    (recreateSwapchain s w h env).1.vulkanAvailable = s.vulkanAvailable ∧
    (recreateSwapchain s w h env).1.fb = s.fb :=
  createSwapchain_preserves (destroySwapchain s).1 w h env

/-- The software fallback never touches the frame counter. -/
theorem renderSoftwareFallback_sync (s : Renderer) (w h : Nat) :
    (renderSoftwareFallback s w h).sync = s.sync := by
  unfold renderSoftwareFallback
  split_ifs <;> rfl

/-- `applyCheck` never touches the frame counter. -/
theorem applyCheck_sync (s : Renderer) (c : CheckOutcome) :
    (applyCheck s c).sync = s.sync := by
  unfold applyCheck
  split_ifs <;> rfl

/-- A failed submit or failed present leaves the frame counter of the
per-frame phase unchanged (every early return happens before the counter
advances). -/
theorem renderFrame_no_advance (s0 : Renderer) (width height : Nat) (env : RenderEnv)
    (hfail : env.submitResult ≠ VkResult.success ∨ env.presentResult ≠ VkResult.success) :
    (renderFrame s0 width height env).1.sync.currentFrame = s0.sync.currentFrame := by
  unfold renderFrame
  dsimp only
  by_cases hacq : env.acquireResult = VkResult.errorOutOfDateKHR
  · rw [if_pos hacq]
    exact congrArg SyncState.currentFrame
      (recreateSwapchain_preserves s0 width height env.scAcq).2.1
  rw [if_neg hacq]
  by_cases hb : ¬ (checkVulkanOperation env.beginResult).ok = true
  · rw [if_pos hb]
    exact congrArg SyncState.currentFrame (applyCheck_sync s0 _)
  rw [if_neg hb]
  by_cases he : ¬ (checkVulkanOperation env.endResult).ok = true
  · rw [if_pos he]
    exact congrArg SyncState.currentFrame (applyCheck_sync s0 _)
  rw [if_neg he]
  by_cases hs1 : env.submitResult = VkResult.errorDeviceLost
  · rw [if_pos hs1]
  rw [if_neg hs1]
  by_cases hs2 : env.submitResult ≠ VkResult.success
  · rw [if_pos hs2]
  rw [if_neg hs2]
  have hp : env.presentResult ≠ VkResult.success := by
    rcases hfail with hf | hf
    · exact absurd (not_not.mp hs2) hf
    · exact hf
  cases hE : env.presentResult with
  | success => exact absurd hE hp
  | errorDeviceLost => rfl
  | errorOutOfDateKHR => rfl
  | suboptimalKHR => rfl
  | errorOther => rfl

/-- A fully successful per-frame phase changes exactly the frame counter,
advancing it modulo `MAX_FRAMES_IN_FLIGHT`. -/
theorem renderFrame_success (s0 : Renderer) (width height : Nat) (env : RenderEnv)
    (hacq : env.acquireResult = VkResult.success)
    (hbeg : env.beginResult = VkResult.success)
    (hend : env.endResult = VkResult.success)
    (hsub : env.submitResult = VkResult.success)
    (hpres : env.presentResult = VkResult.success) :
    (renderFrame s0 width height env).1 =
      { s0 with sync := { s0.sync with
          currentFrame := (s0.sync.currentFrame + 1) % maxFramesInFlight } } := by
  unfold renderFrame
  dsimp only
  rw [if_neg (by simp [hacq]), if_neg (by simp [hbeg, checkVulkanOperation]),
      if_neg (by simp [hend, checkVulkanOperation]), if_neg (by simp [hsub]),
      if_neg (by simp [hsub]), hpres]

/-- A failed submit or failed present leaves the frame counter of `Render`
unchanged, from any state. -/
theorem render_no_advance (s : Renderer) (width height : Nat) (env : RenderEnv)
    (hfail : env.submitResult ≠ VkResult.success ∨ env.presentResult ≠ VkResult.success) :
    (render s width height env).1.sync.currentFrame = s.sync.currentFrame := by
  unfold render
  dsimp only
  by_cases h1 : width = 0 ∨ height = 0 ∨ 65536 < width ∨ 65536 < height
  · rw [if_pos h1]
  rw [if_neg h1]
  by_cases h2 : ¬ s.vulkanAvailable = true
  · rw [if_pos h2]
    exact congrArg SyncState.currentFrame (renderSoftwareFallback_sync s width height)
  rw [if_neg h2]
  by_cases h3 : s.deviceLost = true
  · rw [if_pos h3]
  rw [if_neg h3]
  by_cases h4 : s.dev.deviceH = 0 ∨ s.sc.swapchainH = 0
  · rw [if_pos h4]
  rw [if_neg h4]
  by_cases h5 : s.sc.extentW ≠ width ∨ s.sc.extentH ≠ height
  · rw [if_pos h5]
    dsimp only
    rw [renderFrame_no_advance _ width height env hfail]
    exact congrArg SyncState.currentFrame
      (recreateSwapchain_preserves s width height env.sc).2.1
  · rw [if_neg h5]
    dsimp only
    exact renderFrame_no_advance s width height env hfail

/-- A fully successful `Render` on a matching extent changes exactly the
frame counter. -/
theorem render_success_step (s : Renderer) (width height : Nat) (env : RenderEnv)
    (hdim : ¬(width = 0 ∨ height = 0 ∨ 65536 < width ∨ 65536 < height))
    (hA : s.vulkanAvailable = true) (hL : s.deviceLost = false)
    (hdev : ¬(s.dev.deviceH = 0 ∨ s.sc.swapchainH = 0))
    (hextW : s.sc.extentW = width) (hextH : s.sc.extentH = height)
    (hacq : env.acquireResult = VkResult.success)
    (hbeg : env.beginResult = VkResult.success)
    (hend : env.endResult = VkResult.success)
    (hsub : env.submitResult = VkResult.success)
    (hpres : env.presentResult = VkResult.success) :
    (render s width height env).1 =
      { s with sync := { s.sync with
          currentFrame := (s.sync.currentFrame + 1) % maxFramesInFlight } } := by
  unfold render
  dsimp only
  rw [if_neg hdim, if_neg (by simp [hA]), if_neg (by simp [hL]), if_neg hdev,
      if_neg (by simp [hextW, hextH])]
  dsimp only
  exact renderFrame_success s width height env hacq hbeg hend hsub hpres

/-- Across consecutive fully successful `Render` calls the frame counter
advances by one modulo the ring size at each call. -/
theorem renderIter_cycles (width height : Nat) (env : RenderEnv)
    (hdim : ¬(width = 0 ∨ height = 0 ∨ 65536 < width ∨ 65536 < height))
    (hacq : env.acquireResult = VkResult.success)
    (hbeg : env.beginResult = VkResult.success)
    (hend : env.endResult = VkResult.success)
    (hsub : env.submitResult = VkResult.success)
    (hpres : env.presentResult = VkResult.success) :
    ∀ (n : Nat) (s : Renderer), s.vulkanAvailable = true → s.deviceLost = false →
      ¬(s.dev.deviceH = 0 ∨ s.sc.swapchainH = 0) →
      s.sc.extentW = width → s.sc.extentH = height →
      s.sync.currentFrame < maxFramesInFlight →
      (renderIter width height env n s).sync.currentFrame =
        (s.sync.currentFrame + n) % maxFramesInFlight := by
  intro n
  induction n with
  | zero =>
      intro s _ _ _ _ _ hlt
      simpa [renderIter] using (Nat.mod_eq_of_lt hlt).symm
  | succ n ih =>
      intro s hA hL hdev hextW hextH hlt
      have hstep := render_success_step s width height env hdim hA hL hdev hextW hextH
        hacq hbeg hend hsub hpres
      simp only [renderIter]
      rw [hstep]
      have hnext := ih { s with sync := { s.sync with
          currentFrame := (s.sync.currentFrame + 1) % maxFramesInFlight } }
        hA hL hdev hextW hextH (Nat.mod_lt _ (by decide))
      rw [hnext]
      simp only [maxFramesInFlight]
      omega

/-- C1: on a working renderer with matching extent, (a) a fully successful
`Render` — successful acquire, begin, end, submit and present — advances
the frame counter by exactly one modulo `MAX_FRAMES_IN_FLIGHT = 2` and
changes nothing else; (b) a failed submit or failed present leaves the
frame counter unchanged from any state, so the same slot is retried by the
next call; (c) starting from frame index 0 (where `createSyncObjects`
resets it), across `n` consecutive fully successful calls the index before
call `i` is `i % 2`, i.e. it cycles `0,1,0,1,...`. -/
theorem c1_frame_ring (s : Renderer) (width height : Nat) (env : RenderEnv)
    (hdim : ¬(width = 0 ∨ height = 0 ∨ 65536 < width ∨ 65536 < height))
    (hA : s.vulkanAvailable = true) (hL : s.deviceLost = false)
    (hdev : ¬(s.dev.deviceH = 0 ∨ s.sc.swapchainH = 0))
    (hextW : s.sc.extentW = width) (hextH : s.sc.extentH = height) :
    ((env.acquireResult = VkResult.success ∧ env.beginResult = VkResult.success ∧
      env.endResult = VkResult.success ∧ env.submitResult = VkResult.success ∧
      env.presentResult = VkResult.success) →
      (render s width height env).1 =
        { s with sync := { s.sync with
            currentFrame := (s.sync.currentFrame + 1) % maxFramesInFlight } }) ∧
    (∀ (s' : Renderer) (env' : RenderEnv),
      env'.submitResult ≠ VkResult.success ∨ env'.presentResult ≠ VkResult.success →
      (render s' width height env').1.sync.currentFrame = s'.sync.currentFrame) ∧
    ((env.acquireResult = VkResult.success ∧ env.beginResult = VkResult.success ∧
      env.endResult = VkResult.success ∧ env.submitResult = VkResult.success ∧
      env.presentResult = VkResult.success) → s.sync.currentFrame = 0 →
      ∀ n : Nat, (renderIter width height env n s).sync.currentFrame =
        n % maxFramesInFlight) := by
  refine ⟨fun hok => ?_, fun s' env' hfail => render_no_advance s' width height env' hfail,
          fun hok h0 n => ?_⟩
  · exact render_success_step s width height env hdim hA hL hdev hextW hextH
      hok.1 hok.2.1 hok.2.2.1 hok.2.2.2.1 hok.2.2.2.2
  · have := renderIter_cycles width height env hdim hok.1 hok.2.1 hok.2.2.1
      hok.2.2.2.1 hok.2.2.2.2 n s hA hL hdev hextW hextH
      (by rw [h0]; exact Nat.zero_lt_two)
    rw [this, h0, Nat.zero_add]

/-- Witness for C1: a fully successful render on the initialized renderer
advances the frame index from 0 to 1, a failed-submit render leaves it at
0, and three successful iterated calls end at frame index `3 % 2 = 1`. -/
theorem c1_frame_ring_witness :
    (render readyRenderer 800 600 okRenderEnv).1 =
      { readyRenderer with sync := { readyRenderer.sync with
          currentFrame := (readyRenderer.sync.currentFrame + 1) % maxFramesInFlight } } ∧
    (render readyRenderer 800 600
        { okRenderEnv with submitResult := .errorOther }).1.sync.currentFrame =
      readyRenderer.sync.currentFrame ∧
    (renderIter 800 600 okRenderEnv 3 readyRenderer).sync.currentFrame =
      3 % maxFramesInFlight :=
  ⟨(c1_frame_ring readyRenderer 800 600 okRenderEnv (by decide) rfl rfl (by decide)
      rfl rfl).1 ⟨rfl, rfl, rfl, rfl, rfl⟩,
   (c1_frame_ring readyRenderer 800 600 okRenderEnv (by decide) rfl rfl (by decide)
      rfl rfl).2.1 readyRenderer { okRenderEnv with submitResult := .errorOther }
      (Or.inl (by decide)),
   (c1_frame_ring readyRenderer 800 600 okRenderEnv (by decide) rfl rfl (by decide)
      rfl rfl).2.2 ⟨rfl, rfl, rfl, rfl, rfl⟩ rfl 3⟩

/-! ### Claim C9: Shutdown idempotence -/

/-- After any `Shutdown` call the device and instance handles are null and
both error flags are cleared — in each of the three branches. -/
theorem shutdown_post (s : Renderer) (r : VkResult) :
    (shutdown s r).1.dev.deviceH = 0 ∧ (shutdown s r).1.dev.instanceH = 0 ∧
    (shutdown s r).1.deviceLost = false ∧
    (shutdown s r).1.swapchainOutOfDate = false := by
  unfold shutdown
  dsimp only
  by_cases h1 : s.dev.deviceH = 0
  · rw [if_pos h1]; exact ⟨h1, rfl, rfl, rfl⟩
  rw [if_neg h1]
  by_cases h2 : r = VkResult.errorDeviceLost
  · rw [if_pos h2]; exact ⟨rfl, rfl, rfl, rfl⟩
  · rw [if_neg h2]; exact ⟨rfl, rfl, rfl, rfl⟩

/-- `Shutdown` on a state whose device and instance are already null (and
whose error flags are clear) releases nothing and changes nothing. -/
theorem shutdown_second_noop (s' : Renderer) (r : VkResult)
    (hdev : s'.dev.deviceH = 0) (hinst : s'.dev.instanceH = 0)
    (hdl : s'.deviceLost = false) (hood : s'.swapchainOutOfDate = false) :
    shutdown s' r = (s', []) := by
  obtain ⟨⟨i, p, d, su, g, pr, vl⟩, sc, sync, tex, dl, ood, va, fb, nh⟩ := s'
  dsimp only at hdev hinst hdl hood
  subst hdev hinst hdl hood
  unfold shutdown
  simp

/-- C9: `Shutdown` is idempotent.  (a) For every state and every pair of
wait-idle results, the second of two consecutive `Shutdown` calls issues no
driver call at all — it releases nothing, so no double-free is possible —
and leaves the state exactly as the first call left it.  (b) When the
device is live but wait-idle reports it lost, the first call skips all
device-dependent cleanup: its only driver calls are the wait itself and the
destruction of surface and instance.  (c) When the device is live and not
lost, the first call nulls every owned handle group: device, surface,
instance, library, queues, swapchain, command pool, image views, both sync
rings, legacy sync objects, and the texture. -/
theorem c9_shutdown_idempotent (s : Renderer) (r1 r2 : VkResult) :
    shutdown (shutdown s r1).1 r2 = ((shutdown s r1).1, []) ∧
    (s.dev.deviceH ≠ 0 →
      ∀ c ∈ (shutdown s VkResult.errorDeviceLost).2,
        c = VkCall.deviceWaitIdle ∨ c = VkCall.destroySurfaceKHR s.dev.surfaceH ∨
        c = VkCall.destroyInstance s.dev.instanceH) ∧
    (s.dev.deviceH ≠ 0 → r1 ≠ VkResult.errorDeviceLost → s.dev.instanceH ≠ 0 →
      ((shutdown s r1).1.dev.deviceH = 0 ∧ (shutdown s r1).1.dev.surfaceH = 0 ∧
       (shutdown s r1).1.dev.instanceH = 0 ∧
       (shutdown s r1).1.dev.vulkanLibraryH = 0 ∧
       (shutdown s r1).1.dev.graphicsQueueH = 0 ∧
       (shutdown s r1).1.dev.presentQueueH = 0 ∧
       (shutdown s r1).1.sc.swapchainH = 0 ∧
       (shutdown s r1).1.sc.commandPoolH = 0 ∧
       (shutdown s r1).1.sc.imageViews = [] ∧
       (shutdown s r1).1.sync.imageAvailableSemaphores = [] ∧
       (shutdown s r1).1.sync.renderFinishedSemaphores = [] ∧
       (shutdown s r1).1.sync.inFlightFences = [] ∧
       (shutdown s r1).1.sync.imageAvailableH = 0 ∧
       (shutdown s r1).1.sync.renderFinishedH = 0 ∧
       (shutdown s r1).1.sync.inFlightFenceH = 0 ∧
       (shutdown s r1).1.tex.imageH = 0 ∧ (shutdown s r1).1.tex.memoryH = 0)) := by
  refine ⟨?_, ?_, ?_⟩
  · obtain ⟨h1, h2, h3, h4⟩ := shutdown_post s r1
    exact shutdown_second_noop (shutdown s r1).1 r2 h1 h2 h3 h4
  · intro hdev c hc
    unfold shutdown at hc
    dsimp only at hc
    rw [if_neg hdev, if_pos rfl] at hc
    by_cases hs : s.dev.surfaceH ≠ 0 ∧ s.dev.instanceH ≠ 0 <;>
      by_cases hi : s.dev.instanceH ≠ 0 <;>
      simp [hs, hi] at hc <;> tauto
  · intro hdev hr1 hinst
    unfold shutdown
    dsimp only
    rw [if_neg hdev, if_neg hr1]
    refine ⟨rfl, ?_, rfl, rfl, rfl, rfl, rfl, rfl, rfl, rfl, rfl, rfl, rfl, rfl,
            rfl, rfl, rfl⟩
    by_cases hsu : s.dev.surfaceH ≠ 0
    · simp [destroyTexture, destroySwapchain, hsu, hinst]
    · simp at hsu
      simp [destroyTexture, destroySwapchain, hsu]

/-- Witness for C9: two consecutive shutdowns of the initialized renderer
(the second a verified no-op), the device-lost skip, and the nulled handles
after a normal shutdown. -/
theorem c9_shutdown_idempotent_witness :
    shutdown (shutdown readyRenderer VkResult.success).1 VkResult.success =
      ((shutdown readyRenderer VkResult.success).1, []) ∧
    (VkCall.deviceWaitIdle = VkCall.deviceWaitIdle ∨
     VkCall.deviceWaitIdle = VkCall.destroySurfaceKHR readyRenderer.dev.surfaceH ∨
     VkCall.deviceWaitIdle = VkCall.destroyInstance readyRenderer.dev.instanceH) ∧
    (shutdown readyRenderer VkResult.success).1.tex.imageH = 0 :=
  ⟨(c9_shutdown_idempotent readyRenderer .success .success).1,
   (c9_shutdown_idempotent readyRenderer .success .success).2.1 (by decide)
     VkCall.deviceWaitIdle (by decide),
   ((c9_shutdown_idempotent readyRenderer .success .success).2.2 (by decide)
     (by decide) (by decide)).2.2.2.2.2.2.2.2.2.2.2.2.2.2.2.1⟩

/-! ### Success-path computations of the upload pipeline -/

/-- `createStagingBuffer` under fully successful driver responses: two
fresh handles, three driver calls. -/
theorem createStagingBuffer_ok (s : Renderer) (n : Nat) :
    createStagingBuffer s n okStagingEnv =
      ({ s with nextHandle := s.nextHandle + 1 + 1 },
       [VkCall.createBuffer n, VkCall.allocateMemory, VkCall.bindBufferMemory],
       some (s.nextHandle, s.nextHandle + 1)) := rfl

/-- `beginSingleTimeCommands` under successful driver responses on a live
device and command pool. -/
theorem beginSTC_ok (s : Renderer)
    (hdev : s.dev.deviceH ≠ 0) (hpool : s.sc.commandPoolH ≠ 0) :
    beginSingleTimeCommands s okSingleTimeEnv.beginEnv =
      (s, [VkCall.allocateCommandBuffers, VkCall.beginCommandBuffer], true) := by
  unfold beginSingleTimeCommands
  rw [if_neg (by simp [hdev, hpool])]
  rfl

/-- `endSingleTimeCommands` under successful driver responses on a live
device and graphics queue. -/
theorem endSTC_ok (s : Renderer)
    (hdev : s.dev.deviceH ≠ 0) (hq : s.dev.graphicsQueueH ≠ 0) :
    endSingleTimeCommands s true okSingleTimeEnv.endEnv =
      (s, [VkCall.endCommandBuffer, VkCall.queueSubmit, VkCall.queueWaitIdle,
           VkCall.freeCommandBuffers]) := by
  unfold endSingleTimeCommands
  rw [if_neg (by simp [hdev, hq])]
  rfl

/-- `transitionImageLayout` under successful driver responses: state
unchanged, one barrier recorded inside a single-time round trip. -/
theorem transitionImageLayout_ok (s : Renderer) (image : Handle)
    (oldLayout newLayout : VkImageLayout)
    (hdev : s.dev.deviceH ≠ 0) (hpool : s.sc.commandPoolH ≠ 0)
    (hq : s.dev.graphicsQueueH ≠ 0) (himg : image ≠ 0) :
    transitionImageLayout s image oldLayout newLayout okSingleTimeEnv =
      (s, [VkCall.allocateCommandBuffers, VkCall.beginCommandBuffer,
           VkCall.pipelineBarrier oldLayout newLayout,
           VkCall.endCommandBuffer, VkCall.queueSubmit, VkCall.queueWaitIdle,
           VkCall.freeCommandBuffers]) := by
  unfold transitionImageLayout
  rw [if_neg (by simp [hdev, hpool, himg])]
  dsimp only
  rw [beginSTC_ok s hdev hpool]
  dsimp only
  rw [if_neg (by decide), endSTC_ok s hdev hq]
  rfl

/-- `copyBufferToImage` under successful driver responses. -/
theorem copyBufferToImage_ok (s : Renderer) (buffer image : Handle)
    (width height : Nat)
    (hdev : s.dev.deviceH ≠ 0) (hpool : s.sc.commandPoolH ≠ 0)
    (hq : s.dev.graphicsQueueH ≠ 0)
    (hbuf : buffer ≠ 0) (himg : image ≠ 0) (hw : width ≠ 0) (hh : height ≠ 0) :
    copyBufferToImage s buffer image width height okSingleTimeEnv =
      (s, [VkCall.allocateCommandBuffers, VkCall.beginCommandBuffer,
           VkCall.copyBufferToImage width height,
           VkCall.endCommandBuffer, VkCall.queueSubmit, VkCall.queueWaitIdle,
           VkCall.freeCommandBuffers]) := by
  unfold copyBufferToImage
  rw [if_neg (by simp [hbuf, himg, hw, hh])]
  dsimp only
  rw [beginSTC_ok s hdev hpool]
  dsimp only
  rw [if_neg (by decide), endSTC_ok s hdev hq]
  rfl

/-- `createTexture` under fully successful driver responses: the old
texture is destroyed, the new one takes two fresh handles and the chosen
format, with layout `UNDEFINED` and the new dimensions. -/
theorem createTexture_ok (s : Renderer) (width height : Nat) (isHdr : Bool) :
    createTexture s width height isHdr okCreateTextureEnv =
      ({ s with nextHandle := s.nextHandle + 1 + 1,
                tex := { imageH := s.nextHandle, memoryH := s.nextHandle + 1,
                         format := if isHdr then VkFormat.r16g16b16a16Sfloat
                                   else VkFormat.r8g8b8a8Srgb,
                         layout := VkImageLayout.undefined, width := width,
                         height := height, isHdr := isHdr, isSparse := false,
                         tiles := [] } },
       (destroyTexture s).2 ++ [VkCall.createImage, VkCall.allocateMemory,
                                VkCall.bindImageMemory],
       true) := by
  unfold createTexture
  dsimp only
  rw [if_neg (by decide), if_neg (by decide), if_neg (by decide)]
  rfl

/-- `UpdateImageFromData` under fully successful driver responses when the
held texture already matches `(width, height, isHdr)` and is non-null: the
texture object is untouched (same handle, no create/destroy of an image),
only its tracked layout advances to `TRANSFER_SRC`, and the driver calls
are exactly the staging upload and the two layout transitions. -/
theorem updateImageFromData_ok_reuse (s : Renderer) (pixelData width height : Nat)
    (isHdr : Bool)
    (hgate : ¬(pixelData = 0 ∨ width = 0 ∨ height = 0))
    (hcap1 : ¬(65536 < width ∨ 65536 < height))
    (hcap2 : ¬(67108864 < width * height))
    (hnl : s.deviceLost = false) (hdev : s.dev.deviceH ≠ 0)
    (hpool : s.sc.commandPoolH ≠ 0) (hq : s.dev.graphicsQueueH ≠ 0)
    (hnh : s.nextHandle ≠ 0)
    (hW : s.tex.width = width) (hH : s.tex.height = height)
    (hI : s.tex.isHdr = isHdr) (himg : s.tex.imageH ≠ 0) :
    updateImageFromData s pixelData width height isHdr okUpdateEnv =
      ({ s with nextHandle := s.nextHandle + 1 + 1,
                tex := { s.tex with layout := VkImageLayout.transferSrcOptimal } },
       [VkCall.createBuffer (width * height * (if isHdr then 4 * 2 else 4)),
        VkCall.allocateMemory, VkCall.bindBufferMemory, VkCall.mapMemory, VkCall.unmapMemory,
        VkCall.allocateCommandBuffers, VkCall.beginCommandBuffer,
        VkCall.pipelineBarrier s.tex.layout VkImageLayout.transferDstOptimal,
        VkCall.endCommandBuffer, VkCall.queueSubmit, VkCall.queueWaitIdle, VkCall.freeCommandBuffers,
        VkCall.allocateCommandBuffers, VkCall.beginCommandBuffer,
        VkCall.copyBufferToImage width height,
        VkCall.endCommandBuffer, VkCall.queueSubmit, VkCall.queueWaitIdle, VkCall.freeCommandBuffers,
        VkCall.allocateCommandBuffers, VkCall.beginCommandBuffer,
        VkCall.pipelineBarrier VkImageLayout.transferDstOptimal VkImageLayout.transferSrcOptimal,
        VkCall.endCommandBuffer, VkCall.queueSubmit, VkCall.queueWaitIdle, VkCall.freeCommandBuffers,
        VkCall.destroyBuffer s.nextHandle, VkCall.freeMemory (s.nextHandle + 1)],
       UpdateExit.completed) := by
  have hga := hgate
  push_neg at hga
  obtain ⟨hp, hw, hh⟩ := hga
  unfold updateImageFromData
  simp only [okUpdateEnv]
  rw [if_neg hgate, if_neg hcap1, if_neg hcap2, if_neg (by simp [hnl]), if_neg hdev]
  have hneed : ((s.tex.width != width) || (s.tex.height != height) ||
      (s.tex.isHdr != isHdr) || (s.tex.imageH == 0)) = false := by
    simp [hW, hH, hI, himg]
  rw [hneed, if_neg (by decide : ¬(false = true))]
  dsimp only
  rw [if_neg (by decide : ¬¬(true = true)), createStagingBuffer_ok]
  dsimp only
  rw [if_neg (by decide : ¬¬(checkVulkanOperation VkResult.success).ok = true)]
  rw [transitionImageLayout_ok { s with nextHandle := s.nextHandle + 1 + 1 }
      s.tex.imageH s.tex.layout VkImageLayout.transferDstOptimal hdev hpool hq himg]
  dsimp only
  rw [if_neg (by simp [hnl])]
  rw [copyBufferToImage_ok { s with nextHandle := s.nextHandle + 1 + 1 }
      s.nextHandle s.tex.imageH width height hdev hpool hq hnh himg hw hh]
  dsimp only
  rw [if_neg (by simp [hnl])]
  rw [transitionImageLayout_ok { s with nextHandle := s.nextHandle + 1 + 1 }
      s.tex.imageH VkImageLayout.transferDstOptimal VkImageLayout.transferSrcOptimal
      hdev hpool hq himg]
  dsimp only
  rw [if_neg (by simp [hnl])]
  rfl

/-- `UpdateImageFromData` under fully successful driver responses when
`(width, height, isHdr)` differs from the held texture (or none is held):
the old texture is destroyed, a new one is created with the format chosen
from `isHdr`, uploaded through a staging buffer of
`width*height*pixelSize` bytes, and left in layout `TRANSFER_SRC`. -/
theorem updateImageFromData_ok_new (s : Renderer) (pixelData width height : Nat)
    (isHdr : Bool)
    (hgate : ¬(pixelData = 0 ∨ width = 0 ∨ height = 0))
    (hcap1 : ¬(65536 < width ∨ 65536 < height))
    (hcap2 : ¬(67108864 < width * height))
    (hnl : s.deviceLost = false) (hdev : s.dev.deviceH ≠ 0)
    (hpool : s.sc.commandPoolH ≠ 0) (hq : s.dev.graphicsQueueH ≠ 0)
    (hnh : s.nextHandle ≠ 0)
    (hneedp : s.tex.width ≠ width ∨ s.tex.height ≠ height ∨ s.tex.isHdr ≠ isHdr ∨
              s.tex.imageH = 0) :
    updateImageFromData s pixelData width height isHdr okUpdateEnv =
      ({ s with nextHandle := s.nextHandle + 1 + 1 + 1 + 1,
                tex := { imageH := s.nextHandle, memoryH := s.nextHandle + 1,
                         format := if isHdr then VkFormat.r16g16b16a16Sfloat
                                   else VkFormat.r8g8b8a8Srgb,
                         layout := VkImageLayout.transferSrcOptimal, width := width,
                         height := height, isHdr := isHdr, isSparse := false,
                         tiles := [] } },
       (destroyTexture s).2 ++
         [VkCall.createImage, VkCall.allocateMemory, VkCall.bindImageMemory,
          VkCall.createBuffer (width * height * (if isHdr then 4 * 2 else 4)),
          VkCall.allocateMemory, VkCall.bindBufferMemory,
          VkCall.mapMemory, VkCall.unmapMemory,
          VkCall.allocateCommandBuffers, VkCall.beginCommandBuffer,
          VkCall.pipelineBarrier VkImageLayout.undefined VkImageLayout.transferDstOptimal,
          VkCall.endCommandBuffer, VkCall.queueSubmit, VkCall.queueWaitIdle,
          VkCall.freeCommandBuffers,
          VkCall.allocateCommandBuffers, VkCall.beginCommandBuffer,
          VkCall.copyBufferToImage width height,
          VkCall.endCommandBuffer, VkCall.queueSubmit, VkCall.queueWaitIdle,
          VkCall.freeCommandBuffers,
          VkCall.allocateCommandBuffers, VkCall.beginCommandBuffer,
          VkCall.pipelineBarrier VkImageLayout.transferDstOptimal VkImageLayout.transferSrcOptimal,
          VkCall.endCommandBuffer, VkCall.queueSubmit, VkCall.queueWaitIdle,
          VkCall.freeCommandBuffers,
          VkCall.destroyBuffer (s.nextHandle + 1 + 1),
          VkCall.freeMemory (s.nextHandle + 1 + 1 + 1)],
       UpdateExit.completed) := by
  have hga := hgate
  push_neg at hga
  obtain ⟨hp, hw, hh⟩ := hga
  unfold updateImageFromData
  simp only [okUpdateEnv]
  rw [if_neg hgate, if_neg hcap1, if_neg hcap2, if_neg (by simp [hnl]), if_neg hdev]
  have hneed : ((s.tex.width != width) || (s.tex.height != height) ||
      (s.tex.isHdr != isHdr) || (s.tex.imageH == 0)) = true := by
    simp only [Bool.or_eq_true, bne_iff_ne, beq_iff_eq]
    tauto
  rw [hneed, if_pos (by decide : (true : Bool) = true), createTexture_ok]
  dsimp only
  rw [if_neg (by decide : ¬¬(true = true)), createStagingBuffer_ok]
  dsimp only
  rw [if_neg (by decide : ¬¬(checkVulkanOperation VkResult.success).ok = true)]
  rw [transitionImageLayout_ok
      { s with nextHandle := s.nextHandle + 1 + 1 + 1 + 1,
               tex := { imageH := s.nextHandle, memoryH := s.nextHandle + 1,
                        format := if isHdr then VkFormat.r16g16b16a16Sfloat
                                  else VkFormat.r8g8b8a8Srgb,
                        layout := VkImageLayout.undefined, width := width,
                        height := height, isHdr := isHdr, isSparse := false,
                        tiles := [] } }
      s.nextHandle VkImageLayout.undefined VkImageLayout.transferDstOptimal
      hdev hpool hq hnh]
  dsimp only
  rw [if_neg (by simp [hnl])]
  rw [copyBufferToImage_ok
      { s with nextHandle := s.nextHandle + 1 + 1 + 1 + 1,
               tex := { imageH := s.nextHandle, memoryH := s.nextHandle + 1,
                        format := if isHdr then VkFormat.r16g16b16a16Sfloat
                                  else VkFormat.r8g8b8a8Srgb,
                        layout := VkImageLayout.undefined, width := width,
                        height := height, isHdr := isHdr, isSparse := false,
                        tiles := [] } }
      (s.nextHandle + 1 + 1) s.nextHandle width height hdev hpool hq
      (by simp) hnh hw hh]
  dsimp only
  rw [if_neg (by simp [hnl])]
  rw [transitionImageLayout_ok
      { s with nextHandle := s.nextHandle + 1 + 1 + 1 + 1,
               tex := { imageH := s.nextHandle, memoryH := s.nextHandle + 1,
                        format := if isHdr then VkFormat.r16g16b16a16Sfloat
                                  else VkFormat.r8g8b8a8Srgb,
                        layout := VkImageLayout.undefined, width := width,
                        height := height, isHdr := isHdr, isSparse := false,
                        tiles := [] } }
      s.nextHandle VkImageLayout.transferDstOptimal VkImageLayout.transferSrcOptimal
      hdev hpool hq hnh]
  dsimp only
  rw [if_neg (by simp [hnl])]
  simp

/-- `createTexture` fails exactly when image creation, memory-type lookup
or allocation fails. -/
theorem createTexture_fail (s : Renderer) (width height : Nat) (isHdr : Bool)
    (env : CreateTextureEnv)
    (hfail : env.createImageResult ≠ VkResult.success ∨ ¬env.memoryTypeFound ∨
             env.allocResult ≠ VkResult.success) :
    (createTexture s width height isHdr env).2.2 = false := by
  unfold createTexture
  dsimp only
  by_cases h1 : env.createImageResult ≠ VkResult.success
  · rw [if_pos h1]
  rw [if_neg h1]
  by_cases h2 : ¬ env.memoryTypeFound = true
  · rw [if_pos h2]
  rw [if_neg h2]
  by_cases h3 : env.allocResult ≠ VkResult.success
  · rw [if_pos h3]
  rw [if_neg h3]
  rcases hfail with hf | hf | hf
  · exact absurd hf h1
  · exact absurd (not_not.mp h2) hf
  · exact absurd hf h3

/-- `createTexture` only touches the texture group and the handle counter. -/
theorem createTexture_preserves (s : Renderer) (width height : Nat) (isHdr : Bool)
    (env : CreateTextureEnv) :
    (createTexture s width height isHdr env).1.dev = s.dev ∧
    (createTexture s width height isHdr env).1.sc = s.sc ∧
    (createTexture s width height isHdr env).1.sync = s.sync ∧
    (createTexture s width height isHdr env).1.deviceLost = s.deviceLost ∧
    (createTexture s width height isHdr env).1.swapchainOutOfDate = s.swapchainOutOfDate ∧
    (createTexture s width height isHdr env).1.vulkanAvailable = s.vulkanAvailable ∧
    (createTexture s width height isHdr env).1.fb = s.fb := by
  unfold createTexture destroyTexture
  dsimp only
  by_cases h1 : env.createImageResult ≠ VkResult.success
  · rw [if_pos h1]; exact ⟨rfl, rfl, rfl, rfl, rfl, rfl, rfl⟩
  rw [if_neg h1]
  by_cases h2 : ¬ env.memoryTypeFound = true
  · rw [if_pos h2]; exact ⟨rfl, rfl, rfl, rfl, rfl, rfl, rfl⟩
  rw [if_neg h2]
  by_cases h3 : env.allocResult ≠ VkResult.success
  · rw [if_pos h3]; exact ⟨rfl, rfl, rfl, rfl, rfl, rfl, rfl⟩
  · rw [if_neg h3]; exact ⟨rfl, rfl, rfl, rfl, rfl, rfl, rfl⟩

/-- C10: when `(width, height, isHdr)` requires a new texture and its
creation fails for a non-device-loss reason (failed image creation, no
suitable memory type, or failed allocation), `UpdateImageFromData` sets the
sticky device-lost flag and returns at the `createTextureFailed` exit; the
caller then observes `IsDeviceLost() = true` and every subsequent `Render`
call — with any dimensions and driver responses — is a no-op leaving the
state fixed, until a full teardown and reconstruction. -/
theorem c10_create_texture_failure_sets_sticky_device_lost
    (s : Renderer) (pixelData width height : Nat) (isHdr : Bool) (env : UpdateEnv)
    (hgate : ¬(pixelData = 0 ∨ width = 0 ∨ height = 0))
    (hcap1 : ¬(65536 < width ∨ 65536 < height))
    (hcap2 : ¬(67108864 < width * height))
    (hnl : s.deviceLost = false) (hdev : s.dev.deviceH ≠ 0)
    (hneedp : s.tex.width ≠ width ∨ s.tex.height ≠ height ∨ s.tex.isHdr ≠ isHdr ∨
              s.tex.imageH = 0)
    (hfail : env.ct.createImageResult ≠ VkResult.success ∨ ¬env.ct.memoryTypeFound ∨
             env.ct.allocResult ≠ VkResult.success)
    (hA : s.vulkanAvailable = true) :
    IsDeviceLost (updateImageFromData s pixelData width height isHdr env).1 = true ∧
    (updateImageFromData s pixelData width height isHdr env).2.2 =
      UpdateExit.createTextureFailed ∧
    ∀ calls : List (Nat × Nat × RenderEnv),
      calls.foldl (fun st c => (render st c.1 c.2.1 c.2.2).1)
          (updateImageFromData s pixelData width height isHdr env).1 =
        (updateImageFromData s pixelData width height isHdr env).1 := by
  have hctf : (createTexture s width height isHdr env.ct).2.2 = false :=
    createTexture_fail s width height isHdr env.ct hfail
  have hneed : ((s.tex.width != width) || (s.tex.height != height) ||
      (s.tex.isHdr != isHdr) || (s.tex.imageH == 0)) = true := by
    simp only [Bool.or_eq_true, bne_iff_ne, beq_iff_eq]
    tauto
  unfold updateImageFromData
  dsimp only
  rw [if_neg hgate, if_neg hcap1, if_neg hcap2, if_neg (by simp [hnl]), if_neg hdev,
      hneed, if_pos (by decide : (true : Bool) = true)]
  rw [if_pos (by simp [hctf])]
  refine ⟨rfl, rfl, ?_⟩
  apply render_lost_sticky
  · have hva := (createTexture_preserves s width height isHdr env.ct).2.2.2.2.2.1
    show (createTexture s width height isHdr env.ct).1.vulkanAvailable = true
    rw [hva, hA]
  · rfl

/-- Witness for C10: a failed `vkCreateImage` (resource failure, not a GPU
device loss) during a 16x16 upload leaves the initialized renderer with the
sticky device-lost flag set, and a following `Render` call is a no-op. -/
theorem c10_create_texture_failure_witness :
    IsDeviceLost (updateImageFromData readyRenderer 1 16 16 false
        { okUpdateEnv with ct := { createImageResult := VkResult.errorOther,
                                   memoryTypeFound := true,
                                   allocResult := VkResult.success } }).1 = true ∧
    [(800, 600, okRenderEnv)].foldl (fun st c => (render st c.1 c.2.1 c.2.2).1)
        (updateImageFromData readyRenderer 1 16 16 false
          { okUpdateEnv with ct := { createImageResult := VkResult.errorOther,
                                     memoryTypeFound := true,
                                     allocResult := VkResult.success } }).1 =
      (updateImageFromData readyRenderer 1 16 16 false
        { okUpdateEnv with ct := { createImageResult := VkResult.errorOther,
                                   memoryTypeFound := true,
                                   allocResult := VkResult.success } }).1 :=
  ⟨(c10_create_texture_failure_sets_sticky_device_lost readyRenderer 1 16 16 false
      { okUpdateEnv with ct := { createImageResult := VkResult.errorOther,
                                 memoryTypeFound := true,
                                 allocResult := VkResult.success } }
      (by decide) (by decide) (by decide) rfl (by decide)
      (Or.inr (Or.inr (Or.inr (by decide)))) (Or.inl (by decide)) rfl).1,
   (c10_create_texture_failure_sets_sticky_device_lost readyRenderer 1 16 16 false
      { okUpdateEnv with ct := { createImageResult := VkResult.errorOther,
                                 memoryTypeFound := true,
                                 allocResult := VkResult.success } }
      (by decide) (by decide) (by decide) rfl (by decide)
      (Or.inr (Or.inr (Or.inr (by decide)))) (Or.inl (by decide)) rfl).2.2
     [(800, 600, okRenderEnv)]⟩

/-- `destroyTexture` records no layout transition: it only destroys
buffers, memory and images. -/
theorem barrierEvents_destroyTexture (s : Renderer) :
    barrierEvents (destroyTexture s).2 = [] := by
  unfold destroyTexture barrierEvents
  dsimp only
  rw [List.filterMap_eq_nil_iff]
  intro c hc
  rcases List.mem_append.mp hc with hc | hc
  · split_ifs at hc with ht
    · simp only [List.mem_flatten, List.mem_map] at hc
      obtain ⟨l, ⟨tile, _, rfl⟩, hcl⟩ := hc
      split_ifs at hcl <;> simp at hcl <;>
        (rcases hcl with rfl | rfl | rfl
         all_goals rfl)
    · simp at hc
  · split_ifs at hc <;> simp at hc <;>
      (rcases hc with rfl | rfl
       all_goals rfl)

/-- `barrierEvents` distributes over concatenation. -/
theorem barrierEvents_append (l1 l2 : List VkCall) :
    barrierEvents (l1 ++ l2) = barrierEvents l1 ++ barrierEvents l2 := by
  simp [barrierEvents]

/-- When the blit guard holds, the per-frame phase records a blit whenever
it gets past acquire and begin, whatever happens afterwards. -/
theorem renderFrame_blit_selected (s0 : Renderer) (w2 h2 : Nat) (env2 : RenderEnv)
    (hacq : env2.acquireResult ≠ VkResult.errorOutOfDateKHR)
    (hbeg : env2.beginResult = VkResult.success)
    (hready : renderBlitReady s0 = true) :
    ∃ a b c d, VkCall.blitImage a b c d ∈ (renderFrame s0 w2 h2 env2).2 := by
  unfold renderFrame
  dsimp only
  rw [if_neg hacq, if_neg (by simp [hbeg, checkVulkanOperation]), if_pos hready,
      if_pos hready]
  refine ⟨(clampDstRect env2.castX0 env2.castY0 env2.castX1 env2.castY1
      (Int.ofNat s0.sc.extentW) (Int.ofNat s0.sc.extentH)).x0,
    (clampDstRect env2.castX0 env2.castY0 env2.castX1 env2.castY1
      (Int.ofNat s0.sc.extentW) (Int.ofNat s0.sc.extentH)).y0,
    (clampDstRect env2.castX0 env2.castY0 env2.castX1 env2.castY1
      (Int.ofNat s0.sc.extentW) (Int.ofNat s0.sc.extentH)).x1,
    (clampDstRect env2.castX0 env2.castY0 env2.castX1 env2.castY1
      (Int.ofNat s0.sc.extentW) (Int.ofNat s0.sc.extentH)).y1, ?_⟩
  by_cases he : ¬ (checkVulkanOperation env2.endResult).ok = true
  · rw [if_pos he]; simp
  rw [if_neg he]
  by_cases hs1 : env2.submitResult = VkResult.errorDeviceLost
  · rw [if_pos hs1]; simp
  rw [if_neg hs1]
  by_cases hs2 : env2.submitResult ≠ VkResult.success
  · rw [if_pos hs2]; simp
  rw [if_neg hs2]
  cases env2.presentResult <;> simp

/-- When the blit guard holds on a working renderer with matching extent,
`Render` records a blit whenever acquire and begin succeed. -/
theorem render_blit_selected (s' : Renderer) (w2 h2 : Nat) (env2 : RenderEnv)
    (hdim : ¬(w2 = 0 ∨ h2 = 0 ∨ 65536 < w2 ∨ 65536 < h2))
    (hA : s'.vulkanAvailable = true) (hL : s'.deviceLost = false)
    (hdevsw : ¬(s'.dev.deviceH = 0 ∨ s'.sc.swapchainH = 0))
    (hextW : s'.sc.extentW = w2) (hextH : s'.sc.extentH = h2)
    (hacq : env2.acquireResult ≠ VkResult.errorOutOfDateKHR)
    (hbeg : env2.beginResult = VkResult.success)
    (hready : renderBlitReady s' = true) :
    ∃ a b c d, VkCall.blitImage a b c d ∈ (render s' w2 h2 env2).2 := by
  unfold render
  dsimp only
  rw [if_neg hdim, if_neg (by simp [hA]), if_neg (by simp [hL]), if_neg hdevsw,
      if_neg (by simp [hextW, hextH])]
  dsimp only
  obtain ⟨a, b, c, d, hm⟩ := renderFrame_blit_selected s' w2 h2 env2 hacq hbeg hready
  exact ⟨a, b, c, d, by simpa using hm⟩

/-- C3: under fully successful driver responses, re-uploading with the
`(width, height, isHdr)` of the held (non-null) texture preserves the
texture object identity — the handle is unchanged and the call neither
creates nor destroys any image — while any change to width, height or the
HDR flag destroys the held image and creates a new one (a fresh handle):
the texture is never resized in place. -/
theorem c3_texture_identity_policy (s : Renderer) (pixelData width height : Nat)
    (isHdr : Bool)
    (hgate : ¬(pixelData = 0 ∨ width = 0 ∨ height = 0))
    (hcap1 : ¬(65536 < width ∨ 65536 < height))
    (hcap2 : ¬(67108864 < width * height))
    (hnl : s.deviceLost = false) (hdev : s.dev.deviceH ≠ 0)
    (hpool : s.sc.commandPoolH ≠ 0) (hq : s.dev.graphicsQueueH ≠ 0)
    (hnh : s.nextHandle ≠ 0) (himg : s.tex.imageH ≠ 0) :
    (s.tex.width = width → s.tex.height = height → s.tex.isHdr = isHdr →
      ((updateImageFromData s pixelData width height isHdr okUpdateEnv).1.tex.imageH =
         s.tex.imageH ∧
       VkCall.createImage ∉
         (updateImageFromData s pixelData width height isHdr okUpdateEnv).2.1 ∧
       ∀ g : Handle, VkCall.destroyImage g ∉
         (updateImageFromData s pixelData width height isHdr okUpdateEnv).2.1)) ∧
    ((s.tex.width ≠ width ∨ s.tex.height ≠ height ∨ s.tex.isHdr ≠ isHdr) →
      (VkCall.destroyImage s.tex.imageH ∈
         (updateImageFromData s pixelData width height isHdr okUpdateEnv).2.1 ∧
       VkCall.createImage ∈
         (updateImageFromData s pixelData width height isHdr okUpdateEnv).2.1 ∧
       (s.tex.imageH < s.nextHandle →
         (updateImageFromData s pixelData width height isHdr okUpdateEnv).1.tex.imageH ≠
           s.tex.imageH))) := by
  constructor
  · intro hW hH hI
    rw [updateImageFromData_ok_reuse s pixelData width height isHdr hgate hcap1 hcap2
        hnl hdev hpool hq hnh hW hH hI himg]
    refine ⟨rfl, by simp, fun g => by simp⟩
  · intro hne
    have hneedp : s.tex.width ≠ width ∨ s.tex.height ≠ height ∨ s.tex.isHdr ≠ isHdr ∨
        s.tex.imageH = 0 := by tauto
    rw [updateImageFromData_ok_new s pixelData width height isHdr hgate hcap1 hcap2
        hnl hdev hpool hq hnh hneedp]
    refine ⟨?_, ?_, ?_⟩
    · refine List.mem_append.mpr (Or.inl ?_)
      unfold destroyTexture
      dsimp only
      refine List.mem_append.mpr (Or.inr ?_)
      rw [if_pos himg]
      simp
    · simp
    · intro hlt
      dsimp only
      exact Nat.ne_of_gt hlt

/-- Witness for C3: re-pushing the held 640x480 LDR image keeps handle 22;
pushing an 800x600 image destroys handle 22, creates an image, and the new
handle differs. -/
theorem c3_texture_identity_policy_witness :
    (updateImageFromData texturedRenderer 1 640 480 false okUpdateEnv).1.tex.imageH =
      texturedRenderer.tex.imageH ∧
    VkCall.destroyImage texturedRenderer.tex.imageH ∈
      (updateImageFromData texturedRenderer 1 800 600 false okUpdateEnv).2.1 ∧
    VkCall.createImage ∈
      (updateImageFromData texturedRenderer 1 800 600 false okUpdateEnv).2.1 ∧
    (updateImageFromData texturedRenderer 1 800 600 false okUpdateEnv).1.tex.imageH ≠
      texturedRenderer.tex.imageH :=
  ⟨((c3_texture_identity_policy texturedRenderer 1 640 480 false (by decide) (by decide)
      (by decide) rfl (by decide) (by decide) (by decide) (by decide) (by decide)).1
      rfl rfl rfl).1,
   ((c3_texture_identity_policy texturedRenderer 1 800 600 false (by decide) (by decide)
      (by decide) rfl (by decide) (by decide) (by decide) (by decide) (by decide)).2
      (Or.inl (by decide))).1,
   ((c3_texture_identity_policy texturedRenderer 1 800 600 false (by decide) (by decide)
      (by decide) rfl (by decide) (by decide) (by decide) (by decide) (by decide)).2
      (Or.inl (by decide))).2.1,
   ((c3_texture_identity_policy texturedRenderer 1 800 600 false (by decide) (by decide)
      (by decide) rfl (by decide) (by decide) (by decide) (by decide) (by decide)).2
      (Or.inl (by decide))).2.2 (by decide)⟩

/-- C4: under fully successful driver responses, every upload records
exactly the two layout transitions previous-layout→`TRANSFER_DST` (the
previous layout being `UNDEFINED` whenever the texture was just created)
and `TRANSFER_DST`→`TRANSFER_SRC`, with no step skipped; the tracked layout
ends at `TRANSFER_SRC`, the blit guard of `Render` then holds, and a
subsequent `Render` that passes acquire and begin records a blit. -/
theorem c4_upload_layout_protocol (s : Renderer) (pixelData width height : Nat)
    (isHdr : Bool)
    (hgate : ¬(pixelData = 0 ∨ width = 0 ∨ height = 0))
    (hcap1 : ¬(65536 < width ∨ 65536 < height))
    (hcap2 : ¬(67108864 < width * height))
    (hnl : s.deviceLost = false) (hdev : s.dev.deviceH ≠ 0)
    (hpool : s.sc.commandPoolH ≠ 0) (hq : s.dev.graphicsQueueH ≠ 0)
    (hnh : s.nextHandle ≠ 0) :
    (updateImageFromData s pixelData width height isHdr okUpdateEnv).2.2 =
      UpdateExit.completed ∧
    (updateImageFromData s pixelData width height isHdr okUpdateEnv).1.tex.layout =
      VkImageLayout.transferSrcOptimal ∧
    barrierEvents (updateImageFromData s pixelData width height isHdr okUpdateEnv).2.1 =
      [((if s.tex.width = width ∧ s.tex.height = height ∧ s.tex.isHdr = isHdr ∧
            s.tex.imageH ≠ 0 then s.tex.layout else VkImageLayout.undefined),
        VkImageLayout.transferDstOptimal),
       (VkImageLayout.transferDstOptimal, VkImageLayout.transferSrcOptimal)] ∧
    renderBlitReady (updateImageFromData s pixelData width height isHdr okUpdateEnv).1 =
      true ∧
    (∀ (w2 h2 : Nat) (env2 : RenderEnv),
      ¬(w2 = 0 ∨ h2 = 0 ∨ 65536 < w2 ∨ 65536 < h2) →
      s.vulkanAvailable = true → ¬(s.dev.deviceH = 0 ∨ s.sc.swapchainH = 0) →
      s.sc.extentW = w2 → s.sc.extentH = h2 →
      env2.acquireResult ≠ VkResult.errorOutOfDateKHR →
      env2.beginResult = VkResult.success →
      ∃ a b c d, VkCall.blitImage a b c d ∈
        (render (updateImageFromData s pixelData width height isHdr okUpdateEnv).1
          w2 h2 env2).2) := by
  by_cases hsame : s.tex.width = width ∧ s.tex.height = height ∧ s.tex.isHdr = isHdr ∧
      s.tex.imageH ≠ 0
  · obtain ⟨hW, hH, hI, himg⟩ := hsame
    rw [updateImageFromData_ok_reuse s pixelData width height isHdr hgate hcap1 hcap2
        hnl hdev hpool hq hnh hW hH hI himg]
    refine ⟨rfl, rfl, ?_, ?_, ?_⟩
    · simp [barrierEvents, hW, hH, hI, himg]
    · simp [renderBlitReady, himg]
    · intro w2 h2 env2 hdim2 hA hdevsw hextW hextH hacq2 hbeg2
      exact render_blit_selected _ w2 h2 env2 hdim2 hA hnl hdevsw hextW hextH hacq2
        hbeg2 (by simp [renderBlitReady, himg])
  · have hneedp : s.tex.width ≠ width ∨ s.tex.height ≠ height ∨ s.tex.isHdr ≠ isHdr ∨
        s.tex.imageH = 0 := by tauto
    rw [updateImageFromData_ok_new s pixelData width height isHdr hgate hcap1 hcap2
        hnl hdev hpool hq hnh hneedp]
    refine ⟨rfl, rfl, ?_, ?_, ?_⟩
    · rw [if_neg hsame, barrierEvents_append, barrierEvents_destroyTexture]
      simp [barrierEvents]
    · simp [renderBlitReady, hnh]
    · intro w2 h2 env2 hdim2 hA hdevsw hextW hextH hacq2 hbeg2
      exact render_blit_selected _ w2 h2 env2 hdim2 hA hnl hdevsw hextW hextH hacq2
        hbeg2 (by simp [renderBlitReady, hnh])

/-- Witness for C4: a fresh upload onto the initialized renderer completes,
steps UNDEFINED→DST→SRC, and the following render records a blit. -/
theorem c4_upload_layout_protocol_witness :
    (updateImageFromData readyRenderer 1 640 480 false okUpdateEnv).2.2 =
      UpdateExit.completed ∧
    barrierEvents (updateImageFromData readyRenderer 1 640 480 false okUpdateEnv).2.1 =
      [(VkImageLayout.undefined, VkImageLayout.transferDstOptimal),
       (VkImageLayout.transferDstOptimal, VkImageLayout.transferSrcOptimal)] ∧
    ∃ a b c d, VkCall.blitImage a b c d ∈
      (render (updateImageFromData readyRenderer 1 640 480 false okUpdateEnv).1
        800 600 okRenderEnv).2 := by
  have h := c4_upload_layout_protocol readyRenderer 1 640 480 false (by decide)
    (by decide) (by decide) rfl (by decide) (by decide) (by decide) (by decide)
  refine ⟨h.1, ?_, h.2.2.2.2 800 600 okRenderEnv (by decide) rfl (by decide) rfl rfl
    (by decide) rfl⟩
  have h3 := h.2.2.1
  rw [if_neg (by decide)] at h3
  exact h3

/-- C8 counterexample: a 10000x8000 HDR upload is rejected by the
67108864-pixel cap (10000*8000 = 80000000 pixels): `UpdateImageFromData`
returns at the pixel-count gate with the state unchanged and no driver call
— in particular no 16-bit-float format is selected and no staging buffer of
`width*height*4*2` bytes (or any size) is created. -/
theorem c8_counterexample :
    updateImageFromData readyRenderer 1 10000 8000 true okUpdateEnv =
      (readyRenderer, [], UpdateExit.pixelCountCapExceeded) ∧
    (updateImageFromData readyRenderer 1 10000 8000 true okUpdateEnv).1.tex.format ≠
      VkFormat.r16g16b16a16Sfloat ∧
    VkCall.createBuffer (10000 * 8000 * 4 * 2) ∉
      (updateImageFromData readyRenderer 1 10000 8000 true okUpdateEnv).2.1 := by
  refine ⟨by decide, by decide, by decide⟩

/-- C8 as amended: for an HDR image that fits the caps and requires texture
creation, the selected texture format is `R16G16B16A16_SFLOAT` and the
staging buffer is created with exactly `width*height*(4*2)` bytes. -/
theorem c8_amended_hdr_format_and_staging (s : Renderer) (pixelData width height : Nat)
    (hgate : ¬(pixelData = 0 ∨ width = 0 ∨ height = 0))
    (hcap1 : ¬(65536 < width ∨ 65536 < height))
    (hcap2 : ¬(67108864 < width * height))
    (hnl : s.deviceLost = false) (hdev : s.dev.deviceH ≠ 0)
    (hpool : s.sc.commandPoolH ≠ 0) (hq : s.dev.graphicsQueueH ≠ 0)
    (hnh : s.nextHandle ≠ 0)
    (hneedp : s.tex.width ≠ width ∨ s.tex.height ≠ height ∨ s.tex.isHdr ≠ true ∨
              s.tex.imageH = 0) :
    (updateImageFromData s pixelData width height true okUpdateEnv).1.tex.format =
      VkFormat.r16g16b16a16Sfloat ∧
    VkCall.createBuffer (width * height * (4 * 2)) ∈
      (updateImageFromData s pixelData width height true okUpdateEnv).2.1 := by
  rw [updateImageFromData_ok_new s pixelData width height true hgate hcap1 hcap2 hnl
      hdev hpool hq hnh hneedp]
  exact ⟨rfl, by simp⟩

/-- Witness for the amended C8 at the largest in-cap square HDR image,
8192x8192 (exactly 67108864 pixels): staging size 8192*8192*8 bytes. -/
theorem c8_amended_hdr_format_and_staging_witness :
    (updateImageFromData readyRenderer 1 8192 8192 true okUpdateEnv).1.tex.format =
      VkFormat.r16g16b16a16Sfloat ∧
    VkCall.createBuffer (8192 * 8192 * (4 * 2)) ∈
      (updateImageFromData readyRenderer 1 8192 8192 true okUpdateEnv).2.1 :=
  c8_amended_hdr_format_and_staging readyRenderer 1 8192 8192 (by decide) (by decide)
    (by decide) rfl (by decide) (by decide) (by decide) (by decide)
    (Or.inr (Or.inr (Or.inr (by decide))))

end MIV
